import Mathlib

/-!
Formal model of the FIT-file decoder of this repository (`fit_parser.py`),
as a shallow embedding in Lean 4.

Modelling conventions, used throughout:

* Python values occurring in decoded FIT fields are modelled by `FitVal`:
  numbers (`int`/`float`) as rationals, strings, and ISO-8601 datetime
  strings (the comprehensive parser converts every `datetime` to its
  `isoformat()` string before anything downstream sees it) as `isoTime t`
  with `t` the represented instant in seconds.  `datetime.fromisoformat`
  on such a string recovers `t`; on any other string it raises (modelled
  as a parse miss), and Python string operations treat `isoTime` like any
  other string where that matters (`isinstance(x, str)` tests).
* A Python value that may be `None` is an `Option FitVal` (`none` = null).
* A dict key that may be absent gives another `Option` layer where the
  distinction matters (`Option (Option FitVal)`).
* Python exceptions are modelled with `Except String`: an operation that
  can raise `TypeError` (comparing or subtracting `None`/strings and
  numbers, summing strings, ...) returns `Except`, and the `try/except`
  blocks of `parse_fit_file_comprehensive` / `parse_fit_file` turn any
  error into `none`, exactly as the Python code returns `None`.
* File decoding (the `fitparse` library) is external to the repository;
  entry points take the decoder's outcome as an `Except String (List Msg)`
  argument (`.error` = the library raised while decoding).
-/

/-- A decoded FIT field value, after the comprehensive parser's
serialisation step (datetimes already rendered as ISO strings). -/
inductive FitVal where
  | num (q : ℚ)
  | str (s : String)
  | isoTime (t : ℤ)
  deriving DecidableEq, Repr

/-- The per-field dict `{'value': ..., 'units': ..., 'raw_value': ...}`
built for every field of every message (fit_parser.py lines 151-155). -/
structure FieldData where
  value : Option FitVal := none
  units : Option String := none
  raw_value : Option FitVal := none
  deriving DecidableEq, Repr

/-- A `record_dict`: field name to `FieldData` (keys assumed distinct,
as they come from one Python dict). -/
abbrev RecordDict := List (String × FieldData)

/-- Look a field name up in a record dict (`field_name in record` /
`record[field_name]`). -/
def lookupField (r : RecordDict) (k : String) : Option FieldData :=
  (r.find? (fun p => p.1 = k)).map (·.2)

/-- One decoded message from the binary stream: its type tag (`record.name`)
and its fields, already materialised as a record dict. -/
structure Msg where
  name : String
  fields : RecordDict
  deriving DecidableEq, Repr

/-- Python truthiness of an optional FIT value (`if value:`):
`None`, `0` and `""` are falsy. -/
def pyTruthy : Option FitVal → Bool
  | none => false
  | some (.num q) => decide (q ≠ 0)
  | some (.str s) => decide (s ≠ "")
  | some (.isoTime _) => true

deriving instance DecidableEq for Except

/-- `str.lower()` (ASCII case folding, which is what the repository's
paths and sport labels use). -/
def pyLower (s : String) : String := ⟨s.data.map Char.toLower⟩

/-- `str.endswith(t)`. -/
def pyEndsWith (s t : String) : Bool := t.data.isSuffixOf s.data

/-- `str.replace('Z', '')`: drop every `Z`. -/
def removeZ (s : String) : String := ⟨s.data.filter (fun c => c ≠ 'Z')⟩

/-! ## The raw bucketed structure (`comprehensive_data['raw_data']`) -/

/-- The bucketed raw data (fit_parser.py lines 99-119): the known
buckets as a name-keyed table mirroring the Python dict, plus the
nested `other_messages` table for unrecognized types. -/
structure RawData where
  known : List (String × List RecordDict)
  other_messages : List (String × List RecordDict)
  deriving DecidableEq, Repr

/-- The initial `raw_data` dict: the nineteen known buckets, each empty,
in source order (fit_parser.py lines 100-118), and an empty
`other_messages` table. -/
def initRawData : RawData :=
  { known := [("file_id", []), ("file_creator", []), ("device_info", []),
      ("session", []), ("lap", []), ("record", []), ("event", []), ("hrv", []),
      ("segment", []), ("length", []), ("hr_zone", []), ("power_zone", []),
      ("sport", []), ("workout", []), ("workout_step", []), ("activity", []),
      ("climb_pro", []), ("developer_data", []), ("field_description", [])],
    other_messages := [] }

/-- `raw_data[name]` for a known bucket name. -/
def bucket (rd : RawData) (k : String) : List RecordDict :=
  ((rd.known.find? (fun p => p.1 = k)).map (·.2)).getD []

/-- Append a record to the list stored under a type name, creating the
entry when absent (as `other_messages[message_name].append(...)` does,
fit_parser.py lines 161-164; on the known table the entry always
exists, so this is plain `raw_data[message_name].append(...)`). -/
def addOther : List (String × List RecordDict) → String → RecordDict →
    List (String × List RecordDict)
  | [], n, r => [(n, [r])]
  | (k, l) :: rest, n, r =>
      if k = n then (k, l ++ [r]) :: rest else (k, l) :: addOther rest n r

/-- Store one message's record dict in the bucket named by its type
(fit_parser.py lines 157-164): a known name appends to its bucket, a
message literally named `other_messages` would hit `dict.append` in
Python and raise, and any other name goes into the `other_messages`
table. -/
def route (rd : RawData) (name : String) (r : RecordDict) : Except String RawData :=
  if (rd.known.find? (fun p => p.1 = name)).isSome then
    .ok { rd with known := addOther rd.known name r }
  else if name = "other_messages" then
    .error "AttributeError: dict has no append"
  else
    .ok { rd with other_messages := addOther rd.other_messages name r }

/-- Increment the per-type message counter
(`metadata['message_counts']`, fit_parser.py lines 134-136). -/
def bumpCount : List (String × Nat) → String → List (String × Nat)
  | [], n => [(n, 1)]
  | (k, c) :: rest, n =>
      if k = n then (k, c + 1) :: rest else (k, c) :: bumpCount rest n

/-- The main message loop of `parse_fit_file_comprehensive`
(fit_parser.py lines 130-164): count every message and store it in its
bucket. -/
def processMsgs : List Msg → RawData → List (String × Nat) →
    Except String (RawData × List (String × Nat))
  | [], rd, c => .ok (rd, c)
  | m :: ms, rd, c =>
      match route rd m.name m.fields with
      | .error e => .error e
      | .ok rd' => processMsgs ms rd' (bumpCount c m.name)

/-- Total number of records stored across all buckets of the raw data,
the named ones plus every list in `other_messages`. -/
def totalRawCount (rd : RawData) : Nat :=
  (rd.known.map (fun p => p.2.length)).sum +
  (rd.other_messages.map (fun p => p.2.length)).sum

/-- Sum of the per-type counters in `metadata['message_counts']`. -/
def countsTotal (c : List (String × Nat)) : Nat :=
  (c.map (fun p => p.2)).sum

/-! ## GPS sample points and the split calculator -/

/-- A `gps_point` dict built per record message
(fit_parser.py lines 308-342).  Outer `Option`: the key is present in
the dict; inner `Option FitVal`: the stored value (possibly null). -/
structure GpsPoint where
  time : Option (Option FitVal) := none
  lat : Option (Option FitVal) := none
  lng : Option (Option FitVal) := none
  altitude : Option (Option FitVal) := none
  distance : Option (Option FitVal) := none
  speed : Option (Option FitVal) := none
  heartrate : Option (Option FitVal) := none
  cadence : Option (Option FitVal) := none
  watts : Option (Option FitVal) := none
  temp : Option (Option FitVal) := none
  grade : Option (Option FitVal) := none
  deriving DecidableEq, Repr

/-- `if gps_point:` — the dict is empty iff no field was ever set. -/
def isEmptyGp (p : GpsPoint) : Bool :=
  p.time.isNone && p.lat.isNone && p.lng.isNone && p.altitude.isNone &&
  p.distance.isNone && p.speed.isNone && p.heartrate.isNone &&
  p.cadence.isNone && p.watts.isNone && p.temp.isNone && p.grade.isNone

/-- Set one gps-point entry by its target name (the values of `field_map`,
fit_parser.py lines 311-325); a later assignment to the same name
overwrites (altitude/enhanced_altitude, speed/enhanced_speed). -/
def setGpsField (p : GpsPoint) (gf : String) (v : Option FitVal) : GpsPoint :=
  match gf with
  | "time" => { p with time := some v }
  | "lat" => { p with lat := some v }
  | "lng" => { p with lng := some v }
  | "altitude" => { p with altitude := some v }
  | "distance" => { p with distance := some v }
  | "speed" => { p with speed := some v }
  | "heartrate" => { p with heartrate := some v }
  | "cadence" => { p with cadence := some v }
  | "watts" => { p with watts := some v }
  | "temp" => { p with temp := some v }
  | "grade" => { p with grade := some v }
  | _ => p

/-- The `field_map` of the record loop, in its Python insertion order
(fit_parser.py lines 311-325). -/
def fieldMapList : List (String × String) :=
  [("timestamp", "time"), ("position_lat", "lat"), ("position_long", "lng"),
   ("altitude", "altitude"), ("enhanced_altitude", "altitude"),
   ("distance", "distance"), ("speed", "speed"), ("enhanced_speed", "speed"),
   ("heart_rate", "heartrate"), ("cadence", "cadence"), ("power", "watts"),
   ("temperature", "temp"), ("grade", "grade")]

/-- Semicircle-to-degrees conversion applied to lat/long values when the
value is numeric (`isinstance(value, (int, float))`), fit_parser.py
lines 331-333. -/
def semicirclesToDegrees (v : Option FitVal) : Option FitVal :=
  match v with
  | some (.num q) => some (.num (q * (180 / 2 ^ 31)))
  | w => w

/-- One step of the record-field loop. -/
def gpsStep (r : RecordDict) (p : GpsPoint) (kv : String × String) : GpsPoint :=
  match lookupField r kv.1 with
  | none => p
  | some fd =>
      let v := if kv.1 = "position_lat" ∨ kv.1 = "position_long" then
        semicirclesToDegrees fd.value else fd.value
      setGpsField p kv.2 v

/-- Build one `gps_point` from a record message
(fit_parser.py lines 308-339). -/
def buildGpsPoint (r : RecordDict) : GpsPoint :=
  fieldMapList.foldl (gpsStep r) {}

/-- One computed split (fit_parser.py lines 479-488). -/
structure Split where
  distance : ℚ
  elapsed_time : ℤ
  moving_time : ℤ
  split : Nat
  average_speed : ℚ
  elevation_difference : ℚ
  average_heartrate : Option ℚ
  pace_zone : Nat
  deriving DecidableEq, Repr

/-- `point.get('distance', 0)` — absent key defaults to the number 0;
a present key yields its (possibly null) value. -/
def pointDist (p : GpsPoint) : Option FitVal :=
  match p.distance with
  | none => some (.num 0)
  | some v => v

/-- Use a value as a number for arithmetic/comparison against a number;
anything else raises `TypeError` in Python. -/
def asNumE : Option FitVal → Except String ℚ
  | some (.num q) => .ok q
  | _ => .error "TypeError"

/-- The instant of a point's `time` entry when it is present, non-null
and an ISO datetime string (`datetime.fromisoformat` succeeds); the
calculator's bare `except` maps every other case to no instant. -/
def timeOf (p : GpsPoint) : Option ℤ :=
  match p.time with
  | some (some (.isoTime t)) => some t
  | _ => none

/-- The wall-clock delta between the split's boundary samples
(fit_parser.py lines 455-463): both `time` entries must be present,
non-null and parseable, otherwise the bare `except` leaves 0. -/
def elapsedOf (ps p : GpsPoint) : ℤ :=
  match timeOf ps, timeOf p with
  | some t1, some t2 => t2 - t1
  | _, _ => 0

/-- `split_end['altitude'] - split_start['altitude']` guarded by key
presence on both ends (fit_parser.py lines 468-470): subtraction of
anything but two numbers raises. -/
def elevDiffE (pe ps : GpsPoint) : Except String ℚ :=
  match pe.altitude, ps.altitude with
  | some v2, some v1 =>
      match v2, v1 with
      | some (.num a2), some (.num a1) => .ok (a2 - a1)
      | _, _ => .error "TypeError"
  | _, _ => .ok 0

/-- Python `sum` over collected heart-rate values (starts from the int 0,
so any non-number raises). -/
def pySumE : List FitVal → Except String ℚ
  | [] => .ok 0
  | v :: vs =>
      match v with
      | .num q => do
          let s ← pySumE vs
          .ok (q + s)
      | _ => .error "TypeError"

/-- Average heart rate over the split window
`gps_track[split_start_index : i+1]` (fit_parser.py lines 472-477):
the mean of the non-null heart-rate entries, null when there are none.
Python `sum` raises on non-numeric values. -/
def avgHrOf (track : List GpsPoint) (ssi i : Nat) : Except String (Option ℚ) :=
  let hrs := ((track.take (i + 1)).drop ssi).filterMap (fun q => q.heartrate.bind id)
  if hrs.isEmpty then .ok none
  else
    match pySumE hrs with
    | .error e => .error e
    | .ok s => .ok (some (s / (hrs.length : ℚ)))

/-- The body of `_calculate_splits_from_gps` (fit_parser.py lines
439-494), walking the enumerated track.  State: current split index,
start index of the open split, accumulated splits. -/
def splitLoop (track : List GpsPoint) (bucket : ℚ) :
    List (Nat × GpsPoint) → Nat → Nat → List Split → Except String (List Split)
  | [], _, _, acc => .ok acc
  | (i, p) :: rest, cur, ssi, acc =>
      match asNumE (pointDist p) with
      | .error e => .error e
      | .ok d =>
        if (cur : ℚ) * bucket ≤ d then
          if 0 < i ∧ ssi < track.length then
            let ps := track.getD ssi {}
            match asNumE (pointDist ps) with
            | .error e => .error e
            | .ok dstart =>
              let sd := d - dstart
              let elapsed : ℤ := elapsedOf ps p
              let avg : ℚ := if 0 < elapsed then sd / (elapsed : ℚ) else 0
              match elevDiffE p ps with
              | .error e => .error e
              | .ok ediff =>
                match avgHrOf track ssi i with
                | .error e => .error e
                | .ok ahr =>
                  let sp : Split :=
                    { distance := bucket, elapsed_time := elapsed,
                      moving_time := elapsed, split := cur, average_speed := avg,
                      elevation_difference := ediff, average_heartrate := ahr,
                      pace_zone := 0 }
                  splitLoop track bucket rest (cur + 1) i (acc ++ [sp])
          else splitLoop track bucket rest cur ssi acc
        else splitLoop track bucket rest cur ssi acc

/-- `enumerate(gps_track)` starting at a given index. -/
def enumIdx : Nat → List GpsPoint → List (Nat × GpsPoint)
  | _, [] => []
  | n, a :: l => (n, a) :: enumIdx (n + 1) l

/-- `_calculate_splits_from_gps(gps_track, split_distance_meters)`
(fit_parser.py lines 428-494).  Fallible: a null or non-numeric
cumulative distance, or a null/non-numeric altitude at a split boundary,
raises `TypeError` in Python (which aborts the whole parse). -/
def _calculate_splits_from_gps (track : List GpsPoint) (bucket : ℚ) :
    Except String (List Split) :=
  splitLoop track bucket (enumIdx 0 track) 1 0 []

/-! ## The normalized (Strava-format) activity and the projector -/

/-- One lap entry (fit_parser.py lines 356-375). -/
structure Lap where
  id : Nat
  name : String
  elapsed_time : Option FitVal
  moving_time : Option FitVal
  distance : Option FitVal
  start_index : Option FitVal
  end_index : Option FitVal
  average_speed : Option FitVal
  max_speed : Option FitVal
  average_heartrate : Option FitVal
  max_heartrate : Option FitVal
  average_cadence : Option FitVal
  average_watts : Option FitVal
  max_watts : Option FitVal
  total_elevation_gain : Option FitVal
  calories : Option FitVal
  intensity : Option FitVal
  lap_trigger : Option FitVal
  deriving DecidableEq, Repr

/-- One segment entry (fit_parser.py lines 381-389). -/
structure Segment where
  id : Nat
  name : Option FitVal
  elapsed_time : Option FitVal
  distance : Option FitVal
  average_speed : Option FitVal
  start_index : Option FitVal
  end_index : Option FitVal
  deriving DecidableEq, Repr

/-- One zone boundary entry (fit_parser.py lines 395-407). -/
structure ZoneEntry where
  min : Option FitVal
  max : Option FitVal
  deriving DecidableEq, Repr

/-- The Strava-compatible activity dict (fit_parser.py lines 191-229).
The synthetic id's wall-clock suffix and the Z-suffix normalisation of
an abstract (`isoTime`) start date are not modelled; neither carries
information about the decoded file. -/
structure Activity where
  name : String := "Manual FIT Upload"
  type : String := "Run"
  start_date : Option FitVal := none
  start_date_local : Option FitVal := none
  distance : Option FitVal := some (.num 0)
  moving_time : Option FitVal := some (.num 0)
  elapsed_time : Option FitVal := some (.num 0)
  total_elevation_gain : Option FitVal := some (.num 0)
  elev_high : Option FitVal := none
  elev_low : Option FitVal := none
  average_speed : Option FitVal := some (.num 0)
  max_speed : Option FitVal := some (.num 0)
  average_heartrate : Option FitVal := none
  max_heartrate : Option FitVal := none
  average_cadence : Option FitVal := none
  average_watts : Option FitVal := none
  max_watts : Option FitVal := none
  weighted_average_watts : Option FitVal := none
  average_temp : Option FitVal := none
  has_heartrate : Bool := false
  has_power : Bool := false
  calories : Option FitVal := some (.num 0)
  splits_standard : List Split := []
  splits_metric : List Split := []
  laps : List Lap := []
  segments : List Segment := []
  gps_track : List GpsPoint := []
  id : String := "fit_"
  manual : Bool := true
  device_name : Option FitVal := none
  device_manufacturer : Option FitVal := none
  zones_heart_rate : List ZoneEntry := []
  zones_power : List ZoneEntry := []
  description : String := ""
  deriving DecidableEq, Repr

/-- The initial `activity_data` dict (fit_parser.py lines 191-229). -/
def initActivity : Activity := {}

/-- Assign one session value to its mapped activity attribute
(`field_mapping`, fit_parser.py lines 242-262). -/
def setMappedField (a : Activity) (fit : String) (v : Option FitVal) : Activity :=
  match fit with
  | "total_distance" => { a with distance := v }
  | "total_timer_time" => { a with moving_time := v }
  | "total_elapsed_time" => { a with elapsed_time := v }
  | "total_ascent" => { a with total_elevation_gain := v }
  | "avg_speed" => { a with average_speed := v }
  | "max_speed" => { a with max_speed := v }
  | "avg_heart_rate" => { a with average_heartrate := v }
  | "max_heart_rate" => { a with max_heartrate := v }
  | "avg_cadence" => { a with average_cadence := v }
  | "avg_power" => { a with average_watts := v }
  | "max_power" => { a with max_watts := v }
  | "normalized_power" => { a with weighted_average_watts := v }
  | "avg_temperature" => { a with average_temp := v }
  | "total_calories" => { a with calories := v }
  | _ => a

/-- One `field_mapping` loop body: store the value and set the
heart-rate/power presence flags on truthy values
(fit_parser.py lines 259-268). -/
def applySessionField (a : Activity) (fit : String) (v : Option FitVal) : Activity :=
  let a := setMappedField a fit v
  let a := if (fit = "avg_heart_rate" || fit = "max_heart_rate") && pyTruthy v then
    { a with has_heartrate := true } else a
  if (fit = "avg_power" || fit = "max_power") && pyTruthy v then
    { a with has_power := true } else a

/-- The keys of `field_mapping` in Python dict order
(fit_parser.py lines 242-257). -/
def fieldMappingKeys : List String :=
  ["total_distance", "total_timer_time", "total_elapsed_time", "total_ascent",
   "avg_speed", "max_speed", "avg_heart_rate", "max_heart_rate", "avg_cadence",
   "avg_power", "max_power", "normalized_power", "avg_temperature",
   "total_calories"]

/-- One iteration of the `field_mapping` loop for a given session dict. -/
def sessionFieldsStep (s : RecordDict) (a : Activity) (fit : String) : Activity :=
  match lookupField s fit with
  | some fd => applySessionField a fit fd.value
  | none => a

/-- `sport_map.get(sport_value.lower(), 'Run')`
(fit_parser.py lines 272-282). -/
def sportMap (s : String) : Option String :=
  if s = "running" then some "Run"
  else if s = "cycling" then some "Ride"
  else if s = "walking" then some "Walk"
  else if s = "hiking" then some "Hike"
  else if s = "swimming" then some "Swim"
  else if s = "generic" then some "Workout"
  else none

/-- Store a start-time value into `start_date` / `start_date_local`
when it is a string (fit_parser.py lines 236-239 and 288-291): an
explicit UTC designator is ensured on the date variant and dropped on
the local variant; for an abstract ISO instant the designator
normalisation is the identity on the represented instant. -/
def setStartDate (a : Activity) (v : Option FitVal) : Activity :=
  match v with
  | some (.str t) =>
      { a with
        start_date := some (.str (if pyEndsWith t "Z" then t else t ++ "Z")),
        start_date_local := some (.str (removeZ t)) }
  | some (.isoTime t) =>
      { a with start_date := some (.isoTime t),
               start_date_local := some (.isoTime t) }
  | _ => a

/-- Session extraction (fit_parser.py lines 231-282): start time, the
`field_mapping` loop, then the sport mapping, all from the first
session message. -/
def sessionStage (raw : RawData) (a : Activity) : Activity :=
  match bucket raw "session" with
  | [] => a
  | s :: _ =>
    let a := match lookupField s "start_time" with
      | some fd => setStartDate a fd.value
      | none => a
    let a := fieldMappingKeys.foldl (sessionFieldsStep s) a
    match lookupField s "sport" with
    | some fd =>
        match fd.value with
        | some (.str sp) => { a with type := (sportMap (pyLower sp)).getD "Run" }
        | _ => a
    | none => a

/-- File-id fallback for the start time (fit_parser.py lines 284-291):
used only when `activity_data['start_date']` is still falsy. -/
def fileIdStage (raw : RawData) (a : Activity) : Activity :=
  match bucket raw "file_id" with
  | [] => a
  | f :: _ =>
    match lookupField f "time_created" with
    | some fd =>
        if pyTruthy a.start_date then a
        else setStartDate a fd.value
    | none => a

/-- Device information from the first device_info message
(fit_parser.py lines 293-302; the loop breaks after one iteration). -/
def deviceStage (raw : RawData) (a : Activity) : Activity :=
  match bucket raw "device_info" with
  | [] => a
  | d :: _ =>
    let a := match lookupField d "manufacturer" with
      | some fd => { a with device_manufacturer := fd.value }
      | none => a
    match lookupField d "product" with
    | some fd => { a with device_name := fd.value }
    | none => a

/-- GPS-track construction (fit_parser.py lines 304-346): build a point
per record, keep the non-empty ones, and collect the altitude entries
of the kept points. -/
def gpsStage (raw : RawData) : List GpsPoint × List (Option FitVal) :=
  (bucket raw "record").foldl
    (fun st r =>
      let gp := buildGpsPoint r
      if isEmptyGp gp then st
      else
        (st.1 ++ [gp],
         match gp.altitude with
         | some v => st.2 ++ [v]
         | none => st.2))
    ([], [])

/-- Python `>` on two collected elevation values: numbers compare with
numbers and strings with strings; anything else raises `TypeError`.
Cross-type comparisons involving a datetime string and another string
are modelled as errors as well. -/
def pyGTv : Option FitVal → Option FitVal → Except String Bool
  | some (.num a), some (.num b) => .ok (decide (b < a))
  | some (.str a), some (.str b) => .ok (decide (b < a))
  | some (.isoTime a), some (.isoTime b) => .ok (decide (b < a))
  | _, _ => .error "TypeError"

/-- Python `max` over a non-empty list: keep the running maximum,
comparing each further element (a single-element list never compares,
so `max([None])` is `None`). -/
def pymaxAux (m : Option FitVal) : List (Option FitVal) → Except String (Option FitVal)
  | [] => .ok m
  | x :: xs =>
      match pyGTv x m with
      | .error e => .error e
      | .ok b => pymaxAux (if b then x else m) xs

/-- `max(elevations)`. -/
def pymax : List (Option FitVal) → Except String (Option FitVal)
  | [] => .error "ValueError: max of empty"
  | x :: xs => pymaxAux x xs

/-- Python `min`, symmetric to `pymax`. -/
def pyminAux (m : Option FitVal) : List (Option FitVal) → Except String (Option FitVal)
  | [] => .ok m
  | x :: xs =>
      match pyGTv m x with
      | .error e => .error e
      | .ok b => pyminAux (if b then x else m) xs

/-- `min(elevations)`. -/
def pymin : List (Option FitVal) → Except String (Option FitVal)
  | [] => .error "ValueError: min of empty"
  | x :: xs => pyminAux x xs

/-- Elevation high/low from the collected elevations
(fit_parser.py lines 348-351). -/
def elevStage (el : List (Option FitVal)) (a : Activity) : Except String Activity :=
  if el.isEmpty then .ok a
  else
    match pymax el with
    | .error e => .error e
    | .ok h =>
      match pymin el with
      | .error e => .error e
      | .ok l => .ok { a with elev_high := h, elev_low := l }

/-- `lap.get(key, {}).get('value', d)`. -/
def pyGetV (r : RecordDict) (k : String) (d : Option FitVal) : Option FitVal :=
  match lookupField r k with
  | some fd => fd.value
  | none => d

/-- Lap extraction (fit_parser.py lines 353-376). -/
def lapStage (raw : RawData) (a : Activity) : Activity :=
  { a with
    laps := (List.range (bucket raw "lap").length).zip (bucket raw "lap") |>.map (fun iz =>
      let i := iz.1
      let lap := iz.2
      { id := i + 1, name := "Lap " ++ toString (i + 1),
        elapsed_time := pyGetV lap "total_elapsed_time" (some (.num 0)),
        moving_time := pyGetV lap "total_timer_time" (some (.num 0)),
        distance := pyGetV lap "total_distance" (some (.num 0)),
        start_index := pyGetV lap "start_time" none,
        end_index := pyGetV lap "timestamp" none,
        average_speed := pyGetV lap "avg_speed" (some (.num 0)),
        max_speed := pyGetV lap "max_speed" (some (.num 0)),
        average_heartrate := pyGetV lap "avg_heart_rate" none,
        max_heartrate := pyGetV lap "max_heart_rate" none,
        average_cadence := pyGetV lap "avg_cadence" none,
        average_watts := pyGetV lap "avg_power" none,
        max_watts := pyGetV lap "max_power" none,
        total_elevation_gain := pyGetV lap "total_ascent" (some (.num 0)),
        calories := pyGetV lap "total_calories" (some (.num 0)),
        intensity := pyGetV lap "intensity" (some (.str "active")),
        lap_trigger := pyGetV lap "lap_trigger" (some (.str "manual")) }) }

/-- Segment extraction (fit_parser.py lines 378-390). -/
def segStage (raw : RawData) (a : Activity) : Activity :=
  { a with
    segments := (List.range (bucket raw "segment").length).zip (bucket raw "segment") |>.map (fun iz =>
      let i := iz.1
      let seg := iz.2
      { id := i + 1,
        name := pyGetV seg "name" (some (.str ("Segment " ++ toString (i + 1)))),
        elapsed_time := pyGetV seg "total_elapsed_time" (some (.num 0)),
        distance := pyGetV seg "total_distance" (some (.num 0)),
        average_speed := pyGetV seg "avg_speed" (some (.num 0)),
        start_index := pyGetV seg "start_time" none,
        end_index := pyGetV seg "timestamp" none }) }

/-- Zone extraction (fit_parser.py lines 392-407). -/
def zoneStage (raw : RawData) (a : Activity) : Activity :=
  let a := { a with
    zones_heart_rate := (bucket raw "hr_zone").map (fun z =>
      { min := pyGetV z "low_bpm" none, max := pyGetV z "high_bpm" none }) }
  { a with
    zones_power := (bucket raw "power_zone").map (fun z =>
      { min := pyGetV z "low_value" none, max := pyGetV z "high_value" none }) }

/-- `activity_data['distance'] > 0`: comparing a null or non-numeric
stored distance with the int 0 raises `TypeError`. -/
def pyGTzero : Option FitVal → Except String Bool
  | some (.num d) => .ok (decide (0 < d))
  | _ => .error "TypeError"

/-- Split computation (fit_parser.py lines 409-416): only when the GPS
track is non-empty and the total distance is positive. -/
def splitsStage (a : Activity) : Except String Activity :=
  match (if a.gps_track.isEmpty then .ok false else pyGTzero a.distance :
      Except String Bool) with
  | .error e => .error e
  | .ok go =>
    if go then
      match _calculate_splits_from_gps a.gps_track (160934 / 100 : ℚ) with
      | .error e => .error e
      | .ok ss =>
        match _calculate_splits_from_gps a.gps_track (1000 : ℚ) with
        | .error e => .error e
        | .ok sm => .ok { a with splits_standard := ss, splits_metric := sm }
    else .ok a

/-- Activity-name composition (fit_parser.py lines 418-421).  The
date-string formatting (`datetime.fromisoformat` + `strftime`) is
supplied as the function argument `fd`; it raises (`.error`) on a
start-date value that is not a parseable ISO datetime string. -/
def nameStage (fd : FitVal → Except String String) (a : Activity) :
    Except String Activity :=
  match a.start_date with
  | some v =>
      if pyTruthy (some v) then
        match fd v with
        | .error e => .error e
        | .ok ds => .ok { a with name := a.type ++ " - " ++ ds }
      else .ok a
  | none => .ok a

/-- `activity_data['gps_track'] = ...` (fit_parser.py line 342 via the
record loop): the track assignment before the elevation stage. -/
def gpsAssign (a : Activity) (tr : List GpsPoint) : Activity :=
  { a with gps_track := tr }

/-- `activity_data['description'] = 'Uploaded from FIT file'`
(fit_parser.py line 423). -/
def setDescription (a : Activity) : Activity :=
  { a with description := "Uploaded from FIT file" }

/-- `_generate_strava_format(raw_data)` (fit_parser.py lines 178-425),
composing the stages in source order: session, file-id fallback, device
info, GPS track, elevation summary, laps, segments, zones, splits,
activity name, description.  `fd` abstracts the date formatting used
for the activity name. -/
def _generate_strava_format (fd : FitVal → Except String String)
    (raw : RawData) : Except String Activity :=
  match elevStage (gpsStage raw).2
      (gpsAssign (deviceStage raw (fileIdStage raw (sessionStage raw initActivity)))
        (gpsStage raw).1) with
  | .error e => .error e
  | .ok a =>
    match splitsStage (zoneStage raw (segStage raw (lapStage raw a))) with
    | .error e => .error e
    | .ok a =>
      match nameStage fd a with
      | .error e => .error e
      | .ok a => .ok (setDescription a)

/-! ## Entry points -/

/-- The comprehensive parse result (`raw_data`, `strava_format` and the
claim-relevant part of `metadata`). -/
structure CompData where
  raw_data : RawData
  strava_format : Activity
  message_counts : List (String × Nat)
  deriving DecidableEq, Repr

/-- `parse_fit_file_comprehensive(filepath)` (fit_parser.py lines
69-175).  `decoded` is the outcome of `FitFile(filepath)` plus message
enumeration (`.error` when the library raises); the surrounding
`try/except` returns `None` on any error raised inside, whether while
decoding, bucketing or projecting. -/
def parse_fit_file_comprehensive (fd : FitVal → Except String String)
    (decoded : Except String (List Msg)) : Option CompData :=
  match decoded with
  | .error _ => none
  | .ok msgs =>
    match processMsgs msgs initRawData [] with
    | .error _ => none
    | .ok rc =>
      match _generate_strava_format fd rc.1 with
      | .error _ => none
      | .ok act => some ⟨rc.1, act, rc.2⟩

/-- The two result shapes of `parse_fit_file`. -/
inductive ParseResult where
  | comp (c : CompData)
  | strava (a : Activity)
  deriving DecidableEq, Repr

/-- `parse_fit_file(filepath, comprehensive)` (fit_parser.py lines
497-530): delegate to the comprehensive parser, return `None` when it
failed, and select the result shape. -/
def parse_fit_file (fd : FitVal → Except String String)
    (decoded : Except String (List Msg)) (comprehensive : Bool) :
    Option ParseResult :=
  match parse_fit_file_comprehensive fd decoded with
  | none => none
  | some c => some (if comprehensive then .comp c else .strava c.strava_format)

/-- `validate_fit_file(filepath)` (fit_parser.py lines 605-639).
The file system is abstracted: `content` is the file's bytes when the
path exists (`none` = nonexistent path), and `decode` is the Binary
Stream Reader (`FitFile` + `get_messages`), supplied as an argument so
that the short-circuiting checks are provably independent of it. -/
def validate_fit_file (decode : List Nat → Except String (List Msg))
    (path : String) (content : Option (List Nat)) : Bool × Option String :=
  match content with
  | none => (false, some "File does not exist")
  | some bytes =>
    if ¬ (pyEndsWith (pyLower path) ".fit") then
      (false, some "File must have .fit extension")
    else if 50 * 1024 * 1024 < bytes.length then
      (false, some "FIT file is too large (max 50 MB)")
    else if bytes.length = 0 then
      (false, some "FIT file is empty")
    else
      match decode bytes with
      | .error e => (false, some ("Invalid FIT file format: " ++ e))
      | .ok msgs =>
        if msgs.isEmpty then (false, some "FIT file contains no data")
        else (true, none)

/-! ## Counting lemmas (claim C1) -/

/-- Appending one record under a type name adds exactly one to the
total size of the `other_messages` table. -/
theorem addOther_sum (l : List (String × List RecordDict)) (n : String)
    (r : RecordDict) :
    ((addOther l n r).map (fun p => p.2.length)).sum =
      (l.map (fun p => p.2.length)).sum + 1 := by
  induction l with
  | nil => simp [addOther]
  | cons hd tl ih =>
      obtain ⟨k, lst⟩ := hd
      by_cases hk : k = n
      · simp [addOther, hk]
        omega
      · simp [addOther, hk, ih]
        omega

/-- Routing one record into its bucket adds exactly one to the total
bucket size. -/
theorem route_totalRawCount {rd : RawData} {n : String} {r : RecordDict}
    {rd' : RawData} (h : route rd n r = .ok rd') :
    totalRawCount rd' = totalRawCount rd + 1 := by
  unfold route at h
  split_ifs at h <;>
    first
      | exact Except.noConfusion h
      | (injection h with h
         subst h
         simp only [totalRawCount, addOther_sum]
         omega)

/-- Bumping a per-type counter adds exactly one to the counters' sum. -/
theorem bumpCount_total (c : List (String × Nat)) (n : String) :
    countsTotal (bumpCount c n) = countsTotal c + 1 := by
  induction c with
  | nil => simp [bumpCount, countsTotal]
  | cons hd tl ih =>
      obtain ⟨k, cnt⟩ := hd
      by_cases hk : k = n
      · simp [bumpCount, hk, countsTotal]
        omega
      · simp only [bumpCount, hk, if_neg, countsTotal, List.map_cons,
          List.sum_cons] at *
        simp [ih]
        omega

/-- The message loop adds one to the bucket total and one to the
counter total per processed message. -/
theorem processMsgs_total :
    ∀ (ms : List Msg) (rd : RawData) (c : List (String × Nat))
      (rc : RawData × List (String × Nat)),
      processMsgs ms rd c = .ok rc →
      totalRawCount rc.1 = totalRawCount rd + ms.length ∧
        countsTotal rc.2 = countsTotal c + ms.length := by
  intro ms
  induction ms with
  | nil =>
      intro rd c rc h
      injection h with h
      subst h
      simp
  | cons m tl ih =>
      intro rd c rc h
      unfold processMsgs at h
      cases hr : route rd m.name m.fields with
      | error e => rw [hr] at h; exact Except.noConfusion h
      | ok rd' =>
          rw [hr] at h
          have := ih rd' (bumpCount c m.name) rc h
          rw [route_totalRawCount hr, bumpCount_total] at this
          simpa [List.length_cons, Nat.add_assoc, Nat.add_comm 1 tl.length]
            using this

/-- C1: for every input whose decoded message stream was bucketed
successfully, the sum of message counts across all buckets of the raw
result (the named buckets plus every list in `other_messages`) equals
the total number of messages read, and equals the sum of the per-type
counts recorded in `metadata['message_counts']` — no decoded message,
including one of an unrecognized type, is ever dropped. -/
theorem parse_comprehensive_counts (fd : FitVal → Except String String)
    (dec : Except String (List Msg)) (msgs : List Msg) (c : CompData)
    (hc : parse_fit_file_comprehensive fd dec = some c)
    (hdec : dec = .ok msgs) :
    totalRawCount c.raw_data = msgs.length ∧
      countsTotal c.message_counts = msgs.length := by
  subst hdec
  unfold parse_fit_file_comprehensive at hc
  cases hp : processMsgs msgs initRawData [] with
  | error e => simp only [hp] at hc; exact Option.noConfusion hc
  | ok rc =>
      simp only [hp] at hc
      cases hg : _generate_strava_format fd rc.1 with
      | error e => simp only [hg] at hc; exact Option.noConfusion hc
      | ok act =>
          simp only [hg, Option.some.injEq] at hc
          subst hc
          have h2 := processMsgs_total msgs initRawData [] rc hp
          have hinit : totalRawCount initRawData = 0 := by decide
          have hczero : countsTotal ([] : List (String × Nat)) = 0 := rfl
          rw [hinit, hczero] at h2
          simpa using h2

/-- A concrete four-message stream for exercising
`parse_comprehensive_counts`: one known type, one unknown type twice,
one session. -/
def msgsC1 : List Msg :=
  [⟨"record", []⟩, ⟨"weird_type", []⟩, ⟨"weird_type", []⟩, ⟨"session", []⟩]

/-- A trivial date formatter for concrete runs. -/
def fdOk : FitVal → Except String String := fun _ => .ok "January 01, 2024"

/-- The comprehensive result of parsing `msgsC1`. -/
def compC1 : CompData :=
  (parse_fit_file_comprehensive fdOk (.ok msgsC1)).getD
    ⟨initRawData, initActivity, []⟩

/-- Witness for `parse_comprehensive_counts` at the concrete stream
`msgsC1`. -/
theorem parse_comprehensive_counts_witness :
    totalRawCount compC1.raw_data = 4 ∧ countsTotal compC1.message_counts = 4 :=
  parse_comprehensive_counts fdOk (.ok msgsC1) msgsC1 compC1 (by decide) rfl

/-! ## Validator (claims C5, C10) -/

/-- C5: `validate_fit_file` performs its checks in order — existence,
case-insensitive `.fit` extension, size cap, non-emptiness — and
short-circuits on the first failure with the stated reason, for every
decoder (so no decode is ever attempted on these paths); a surviving
file is then handed to the decoder, whose failure or empty stream also
yields the stated reasons. -/
theorem validate_fit_file_checks_in_order
    (decode : List Nat → Except String (List Msg)) (path : String)
    (content : Option (List Nat)) :
    (content = none →
      validate_fit_file decode path content =
        (false, some "File does not exist")) ∧
    (∀ bytes, content = some bytes →
      pyEndsWith (pyLower path) ".fit" = false →
      validate_fit_file decode path content =
        (false, some "File must have .fit extension")) ∧
    (∀ bytes, content = some bytes →
      pyEndsWith (pyLower path) ".fit" = true →
      50 * 1024 * 1024 < bytes.length →
      validate_fit_file decode path content =
        (false, some "FIT file is too large (max 50 MB)")) ∧
    (∀ bytes, content = some bytes →
      pyEndsWith (pyLower path) ".fit" = true →
      bytes.length ≤ 50 * 1024 * 1024 → bytes.length = 0 →
      validate_fit_file decode path content =
        (false, some "FIT file is empty")) ∧
    (∀ bytes e, content = some bytes →
      pyEndsWith (pyLower path) ".fit" = true →
      bytes.length ≤ 50 * 1024 * 1024 → bytes.length ≠ 0 →
      decode bytes = .error e →
      validate_fit_file decode path content =
        (false, some ("Invalid FIT file format: " ++ e))) := by
  refine ⟨?_, ?_, ?_, ?_, ?_⟩
  · intro h
    subst h
    rfl
  · intro bytes h hext
    subst h
    simp [validate_fit_file, hext]
  · intro bytes h hext hsize
    subst h
    simp [validate_fit_file, hext, hsize, Nat.not_le_of_lt hsize]
  · intro bytes h hext hsize hempty
    subst h
    simp [validate_fit_file, hext, Nat.not_lt_of_le hsize, hempty]
  · intro bytes e h hext hsize hempty hdec
    subst h
    simp [validate_fit_file, hext, Nat.not_lt_of_le hsize, hempty, hdec]

/-- Witness for `validate_fit_file_checks_in_order`, exercising each
failing check at a concrete input (the oversized case uses a
50 MB + 1 replicated byte list, never evaluated element by element). -/
theorem validate_fit_file_checks_in_order_witness :
    (validate_fit_file (fun _ => .ok []) "a.fit" none =
      (false, some "File does not exist")) ∧
    (validate_fit_file (fun _ => .ok []) "a.txt" (some [1]) =
      (false, some "File must have .fit extension")) ∧
    (validate_fit_file (fun _ => .ok []) "b.FIT" (some (List.replicate (50 * 1024 * 1024 + 1) 0)) =
      (false, some "FIT file is too large (max 50 MB)")) ∧
    (validate_fit_file (fun _ => .ok []) "c.fit" (some []) =
      (false, some "FIT file is empty")) ∧
    (validate_fit_file (fun _ => .error "bad header") "d.fit" (some [9]) =
      (false, some ("Invalid FIT file format: " ++ "bad header"))) :=
  ⟨(validate_fit_file_checks_in_order (fun _ => .ok []) "a.fit" none).1 rfl,
   (validate_fit_file_checks_in_order (fun _ => .ok []) "a.txt" (some [1])).2.1
     [1] rfl (by decide),
   (validate_fit_file_checks_in_order (fun _ => .ok []) "b.FIT"
       (some (List.replicate (50 * 1024 * 1024 + 1) 0))).2.2.1
     (List.replicate (50 * 1024 * 1024 + 1) 0) rfl (by decide)
     (by rw [List.length_replicate]; omega),
   (validate_fit_file_checks_in_order (fun _ => .ok []) "c.fit" (some [])).2.2.2.1
     [] rfl (by decide) (by simp) rfl,
   (validate_fit_file_checks_in_order (fun _ => .error "bad header") "d.fit"
       (some [9])).2.2.2.2 [9] "bad header" rfl (by decide) (by simp)
     (by simp) rfl⟩

/-- C10: `validate_fit_file` returns a null reason exactly when the
verdict is true, and every failure reason is a non-empty string. -/
theorem validate_fit_file_reason_iff
    (decode : List Nat → Except String (List Msg)) (path : String)
    (content : Option (List Nat)) :
    ((validate_fit_file decode path content).1 = true ↔
      (validate_fit_file decode path content).2 = none) ∧
    (∀ r, (validate_fit_file decode path content).2 = some r → r ≠ "") := by
  unfold validate_fit_file
  cases content with
  | none => simp
  | some bytes =>
      by_cases hext : pyEndsWith (pyLower path) ".fit"
      · by_cases hsize : 50 * 1024 * 1024 < bytes.length
        · simp [hext, hsize]
        · by_cases hempty : bytes.length = 0
          · simp [hext, hsize, hempty]
          · cases hdec : decode bytes with
            | error e =>
                simp only [hext, hsize, hempty, hdec, not_true, not_false_iff,
                  if_true, if_false, ite_false, ite_true, Bool.not_true,
                  if_neg, not_not]
                constructor
                · simp [hext, hsize, hempty]
                · intro r hr
                  simp only [hext, hsize, hempty, if_true, if_false, ite_false,
                    ite_true, if_neg, Option.some.injEq] at hr
                  subst hr
                  intro hcontra
                  have hlen := congrArg String.length hcontra
                  rw [String.length_append] at hlen
                  have h25 : "Invalid FIT file format: ".length = 25 := by decide
                  have h0 : "".length = 0 := rfl
                  rw [h25, h0] at hlen
                  omega
            | ok msgs =>
                by_cases hm : msgs.isEmpty
                · simp [hext, hsize, hempty, hdec, hm]
                · simp [hext, hsize, hempty, hdec, hm]
      · simp [hext]

/-- Witness for `validate_fit_file_reason_iff` at a concrete input. -/
theorem validate_fit_file_reason_iff_witness :
    ((validate_fit_file (fun _ => .ok []) "w.fit" none).1 = true ↔
      (validate_fit_file (fun _ => .ok []) "w.fit" none).2 = none) ∧
    (∀ r, (validate_fit_file (fun _ => .ok []) "w.fit" none).2 = some r →
      r ≠ "") :=
  validate_fit_file_reason_iff (fun _ => .ok []) "w.fit" none

/-! ## Entry-point failure semantics (claim C6) -/

/-- C6: whenever decoding raises, or the message loop or the projection
raises, the public parse entry point returns a null result, in both
result modes — never a partial activity; being a total function into
`Option`, it also cannot let any exception escape. -/
theorem parse_fit_file_null_on_failure
    (fd : FitVal → Except String String) (dec : Except String (List Msg))
    (flag : Bool) :
    ((∃ e, dec = Except.error e) →
      parse_fit_file fd dec flag = none ∧
        parse_fit_file_comprehensive fd dec = none) ∧
    (∀ msgs, dec = Except.ok msgs →
      (∃ e, processMsgs msgs initRawData [] = .error e) →
      parse_fit_file fd dec flag = none ∧
        parse_fit_file_comprehensive fd dec = none) ∧
    (∀ msgs rc, dec = Except.ok msgs →
      processMsgs msgs initRawData [] = .ok rc →
      (∃ e, _generate_strava_format fd rc.1 = .error e) →
      parse_fit_file fd dec flag = none ∧
        parse_fit_file_comprehensive fd dec = none) ∧
    (parse_fit_file_comprehensive fd dec = none →
      parse_fit_file fd dec flag = none) := by
  refine ⟨?_, ?_, ?_, ?_⟩
  · rintro ⟨e, he⟩
    subst he
    exact ⟨rfl, rfl⟩
  · rintro msgs hdec ⟨e, he⟩
    subst hdec
    constructor
    · unfold parse_fit_file parse_fit_file_comprehensive
      simp only [he]
    · unfold parse_fit_file_comprehensive
      simp only [he]
  · rintro msgs rc hdec hproc ⟨e, he⟩
    subst hdec
    constructor
    · unfold parse_fit_file parse_fit_file_comprehensive
      simp only [hproc, he]
    · unfold parse_fit_file_comprehensive
      simp only [hproc, he]
  · intro h
    unfold parse_fit_file
    simp only [h]

/-- A message stream whose projection raises in the name-formatting
step when the date formatter raises. -/
def msgsC6 : List Msg :=
  [⟨"session", [("start_time", { value := some (.isoTime 0) })]⟩]

/-- A date formatter that always raises (models `strftime` /
`fromisoformat` failing). -/
def fdErr : FitVal → Except String String := fun _ => .error "strftime"

/-- The bucketing outcome for `msgsC6`. -/
def rcC6 : RawData × List (String × Nat) :=
  ((processMsgs msgsC6 initRawData []).toOption).getD (initRawData, [])

/-- Witness for `parse_fit_file_null_on_failure`: a decoder error and a
projection error, each at a concrete input. -/
theorem parse_fit_file_null_on_failure_witness :
    (parse_fit_file fdOk (.error "boom") true = none ∧
      parse_fit_file_comprehensive fdOk (.error "boom") = none) ∧
    (parse_fit_file fdErr (.ok msgsC6) true = none ∧
      parse_fit_file_comprehensive fdErr (.ok msgsC6) = none) :=
  ⟨(parse_fit_file_null_on_failure fdOk (.error "boom") true).1 ⟨"boom", rfl⟩,
   (parse_fit_file_null_on_failure fdErr (.ok msgsC6) true).2.2.1 msgsC6 rcC6
     rfl (by rfl) ⟨"strftime", by rfl⟩⟩

/-! ## Semicircle conversion (claim C4) -/

/-- Setting any gps entry other than `lat` leaves `lat` unchanged. -/
theorem setGpsField_lat (p : GpsPoint) (v : Option FitVal) {gf : String}
    (h : ¬ gf = "lat") : (setGpsField p gf v).lat = p.lat := by
  unfold setGpsField
  split <;> simp_all

/-- Setting any gps entry other than `lng` leaves `lng` unchanged. -/
theorem setGpsField_lng (p : GpsPoint) (v : Option FitVal) {gf : String}
    (h : ¬ gf = "lng") : (setGpsField p gf v).lng = p.lng := by
  unfold setGpsField
  split <;> simp_all

/-- A record-loop step whose target is not `lat` preserves `lat`. -/
theorem gpsStep_lat (r : RecordDict) (p : GpsPoint) (kv : String × String)
    (h : ¬ kv.2 = "lat") : (gpsStep r p kv).lat = p.lat := by
  unfold gpsStep
  cases lookupField r kv.1 with
  | none => rfl
  | some fd => exact setGpsField_lat _ _ h

/-- A record-loop step whose target is not `lng` preserves `lng`. -/
theorem gpsStep_lng (r : RecordDict) (p : GpsPoint) (kv : String × String)
    (h : ¬ kv.2 = "lng") : (gpsStep r p kv).lng = p.lng := by
  unfold gpsStep
  cases lookupField r kv.1 with
  | none => rfl
  | some fd => exact setGpsField_lng _ _ h

/-- Folding record-loop steps none of which targets `lat` preserves
`lat`. -/
theorem foldl_gpsStep_lat (r : RecordDict) (l : List (String × String))
    (p : GpsPoint) (h : ∀ kv ∈ l, ¬ kv.2 = "lat") :
    (l.foldl (gpsStep r) p).lat = p.lat := by
  induction l generalizing p with
  | nil => rfl
  | cons hd tl ih =>
      rw [List.foldl_cons, ih _ (fun kv hkv => h kv (List.mem_cons_of_mem _ hkv)),
        gpsStep_lat _ _ _ (h hd (List.mem_cons_self _ _))]

/-- Folding record-loop steps none of which targets `lng` preserves
`lng`. -/
theorem foldl_gpsStep_lng (r : RecordDict) (l : List (String × String))
    (p : GpsPoint) (h : ∀ kv ∈ l, ¬ kv.2 = "lng") :
    (l.foldl (gpsStep r) p).lng = p.lng := by
  induction l generalizing p with
  | nil => rfl
  | cons hd tl ih =>
      rw [List.foldl_cons, ih _ (fun kv hkv => h kv (List.mem_cons_of_mem _ hkv)),
        gpsStep_lng _ _ _ (h hd (List.mem_cons_self _ _))]

/-- C4 (amended): the projector converts a numeric semicircle value to
degrees by multiplying with `180 / 2^31`; the result lies in
`[-90, 90]` for latitude whenever the raw value lies in the latitude
encoding range `[-2^30, 2^30]`, and in `[-180, 180]` for longitude
whenever the raw value is a signed 32-bit integer. -/
theorem buildGpsPoint_latlng_conversion :
    (∀ (r : RecordDict) (f : FieldData) (q : ℚ),
      lookupField r "position_lat" = some f → f.value = some (.num q) →
      (buildGpsPoint r).lat = some (some (.num (q * (180 / 2 ^ 31)))) ∧
      (-(2 ^ 30) ≤ q → q ≤ 2 ^ 30 →
        -90 ≤ q * (180 / 2 ^ 31) ∧ q * (180 / 2 ^ 31) ≤ 90)) ∧
    (∀ (r : RecordDict) (f : FieldData) (q : ℚ),
      lookupField r "position_long" = some f → f.value = some (.num q) →
      (buildGpsPoint r).lng = some (some (.num (q * (180 / 2 ^ 31)))) ∧
      (-(2 ^ 31) ≤ q → q ≤ 2 ^ 31 - 1 →
        -180 ≤ q * (180 / 2 ^ 31) ∧ q * (180 / 2 ^ 31) ≤ 180)) := by
  have hc : (0 : ℚ) < 180 / 2 ^ 31 := by norm_num
  constructor
  · intro r f q hlook hval
    constructor
    · unfold buildGpsPoint fieldMapList
      rw [List.foldl_cons, List.foldl_cons]
      rw [foldl_gpsStep_lat _ _ _ (by decide)]
      show (gpsStep r (gpsStep r {} ("timestamp", "time"))
        ("position_lat", "lat")).lat = _
      unfold gpsStep
      rw [hlook]
      simp only [true_or, or_true, reduceIte]
      rw [hval]
      rfl
    · intro h1 h2
      constructor
      · have := mul_le_mul_of_nonneg_right h1 hc.le
        calc (-90 : ℚ) = -(2 ^ 30) * (180 / 2 ^ 31) := by norm_num
          _ ≤ q * (180 / 2 ^ 31) := this
      · have := mul_le_mul_of_nonneg_right h2 hc.le
        calc q * (180 / 2 ^ 31) ≤ 2 ^ 30 * (180 / 2 ^ 31) := this
          _ = 90 := by norm_num
  · intro r f q hlook hval
    constructor
    · unfold buildGpsPoint fieldMapList
      rw [List.foldl_cons, List.foldl_cons, List.foldl_cons]
      rw [foldl_gpsStep_lng _ _ _ (by decide)]
      show (gpsStep r (gpsStep r (gpsStep r {} ("timestamp", "time"))
        ("position_lat", "lat")) ("position_long", "lng")).lng = _
      unfold gpsStep
      rw [hlook]
      simp only [true_or, or_true, reduceIte]
      rw [hval]
      rfl
    · intro h1 h2
      constructor
      · have := mul_le_mul_of_nonneg_right h1 hc.le
        calc (-180 : ℚ) = -(2 ^ 31) * (180 / 2 ^ 31) := by norm_num
          _ ≤ q * (180 / 2 ^ 31) := this
      · have := mul_le_mul_of_nonneg_right h2 hc.le
        calc q * (180 / 2 ^ 31) ≤ (2 ^ 31 - 1) * (180 / 2 ^ 31) := this
          _ ≤ 180 := by norm_num

/-- A record message whose latitude field holds the largest signed
32-bit semicircle value. -/
def recC4 : RecordDict := [("position_lat", { value := some (.num (2 ^ 31 - 1)) })]

/-- C4 counterexample: on the record `recC4` — a wire-valid sint32
semicircle latitude — the projector produces a converted latitude of
`(2^31-1) * 180/2^31 ≈ 179.99`, which is **not** in `[-90, 90]`; the
code never clamps, so the claim's range statement fails as stated. -/
theorem buildGpsPoint_lat_out_of_range :
    (buildGpsPoint recC4).lat =
      some (some (.num ((2 ^ 31 - 1) * (180 / 2 ^ 31)))) ∧
    (90 : ℚ) < (2 ^ 31 - 1) * (180 / 2 ^ 31) := by
  constructor
  · rfl
  · norm_num

/-- A record carrying one latitude and one longitude semicircle value
inside the nominal encoding ranges. -/
def recC4w : RecordDict :=
  [("position_lat", { value := some (.num 1073741824) }),
   ("position_long", { value := some (.num (-2147483648)) })]

/-- Witness for `buildGpsPoint_latlng_conversion` at `recC4w`. -/
theorem buildGpsPoint_latlng_conversion_witness :
    ((buildGpsPoint recC4w).lat =
      some (some (.num (1073741824 * (180 / 2 ^ 31)))) ∧
      (-90 : ℚ) ≤ 1073741824 * (180 / 2 ^ 31) ∧
      (1073741824 : ℚ) * (180 / 2 ^ 31) ≤ 90) ∧
    ((buildGpsPoint recC4w).lng =
      some (some (.num ((-2147483648) * (180 / 2 ^ 31)))) ∧
      (-180 : ℚ) ≤ (-2147483648) * (180 / 2 ^ 31) ∧
      ((-2147483648) : ℚ) * (180 / 2 ^ 31) ≤ 180) := by
  have hlat := (buildGpsPoint_latlng_conversion.1 recC4w
    { value := some (.num 1073741824) } 1073741824 rfl rfl)
  have hlng := (buildGpsPoint_latlng_conversion.2 recC4w
    { value := some (.num (-2147483648)) } (-2147483648) rfl rfl)
  have hlat2 := hlat.2 (by norm_num) (by norm_num)
  have hlng2 := hlng.2 (by norm_num) (by norm_num)
  exact ⟨⟨hlat.1, hlat2.1, hlat2.2⟩, ⟨hlng.1, hlng2.1, hlng2.2⟩⟩

/-! ## Stage preservation lemmas for the projector -/

theorem setStartDate_core (a : Activity) (v : Option FitVal) :
    (setStartDate a v).type = a.type ∧
    (setStartDate a v).has_heartrate = a.has_heartrate ∧
    (setStartDate a v).has_power = a.has_power ∧
    (setStartDate a v).elev_high = a.elev_high ∧
    (setStartDate a v).elev_low = a.elev_low := by
  unfold setStartDate
  split <;> exact ⟨rfl, rfl, rfl, rfl, rfl⟩

theorem setMappedField_core (a : Activity) (fit : String) (v : Option FitVal) :
    (setMappedField a fit v).type = a.type ∧
    (setMappedField a fit v).has_heartrate = a.has_heartrate ∧
    (setMappedField a fit v).has_power = a.has_power ∧
    (setMappedField a fit v).elev_high = a.elev_high ∧
    (setMappedField a fit v).elev_low = a.elev_low := by
  unfold setMappedField
  split <;> exact ⟨rfl, rfl, rfl, rfl, rfl⟩

theorem applySessionField_core (a : Activity) (fit : String) (v : Option FitVal) :
    (applySessionField a fit v).type = a.type ∧
    (applySessionField a fit v).elev_high = a.elev_high ∧
    (applySessionField a fit v).elev_low = a.elev_low := by
  unfold applySessionField
  have h := setMappedField_core a fit v
  split <;> split <;>
    simp_all

theorem sessionFieldsStep_core (s : RecordDict) (a : Activity) (fit : String) :
    (sessionFieldsStep s a fit).type = a.type ∧
    (sessionFieldsStep s a fit).elev_high = a.elev_high ∧
    (sessionFieldsStep s a fit).elev_low = a.elev_low := by
  unfold sessionFieldsStep
  cases lookupField s fit with
  | none => exact ⟨rfl, rfl, rfl⟩
  | some f => exact applySessionField_core a fit f.value

theorem foldl_sessionFieldsStep_core (s : RecordDict)
    (l : List String) (a : Activity) :
    ((l.foldl (sessionFieldsStep s) a).type = a.type ∧
      (l.foldl (sessionFieldsStep s) a).elev_high = a.elev_high ∧
      (l.foldl (sessionFieldsStep s) a).elev_low = a.elev_low) := by
  induction l generalizing a with
  | nil => exact ⟨rfl, rfl, rfl⟩
  | cons hd tl ih =>
      rw [List.foldl_cons]
      have h1 := sessionFieldsStep_core s a hd
      have h2 := ih (sessionFieldsStep s a hd)
      exact ⟨h2.1.trans h1.1, h2.2.1.trans h1.2.1, h2.2.2.trans h1.2.2⟩

/-- The session stage never touches the elevation summary fields. -/
theorem sessionStage_elev (raw : RawData) (a : Activity) :
    (sessionStage raw a).elev_high = a.elev_high ∧
    (sessionStage raw a).elev_low = a.elev_low := by
  unfold sessionStage
  cases bucket raw "session" with
  | nil => exact ⟨rfl, rfl⟩
  | cons s rest =>
      have hstart : ∀ b : Activity,
          (match lookupField s "start_time" with
            | some fd => setStartDate b fd.value
            | none => b).elev_high = b.elev_high ∧
          (match lookupField s "start_time" with
            | some fd => setStartDate b fd.value
            | none => b).elev_low = b.elev_low := by
        intro b
        cases lookupField s "start_time" with
        | none => exact ⟨rfl, rfl⟩
        | some f => exact ⟨(setStartDate_core b f.value).2.2.2.1,
            (setStartDate_core b f.value).2.2.2.2⟩
      have hfold := foldl_sessionFieldsStep_core s fieldMappingKeys
      cases hsp : lookupField s "sport" with
      | none =>
          simp only [hsp]
          exact ⟨(hfold _).2.1.trans (hstart a).1,
            (hfold _).2.2.trans (hstart a).2⟩
      | some f =>
          simp only [hsp]
          cases hv : f.value with
          | none =>
              exact ⟨(hfold _).2.1.trans (hstart a).1,
                (hfold _).2.2.trans (hstart a).2⟩
          | some w =>
              cases w <;>
                exact ⟨(hfold _).2.1.trans (hstart a).1,
                  (hfold _).2.2.trans (hstart a).2⟩

theorem fileIdStage_core (raw : RawData) (a : Activity) :
    (fileIdStage raw a).type = a.type ∧
    (fileIdStage raw a).has_heartrate = a.has_heartrate ∧
    (fileIdStage raw a).has_power = a.has_power ∧
    (fileIdStage raw a).elev_high = a.elev_high ∧
    (fileIdStage raw a).elev_low = a.elev_low := by
  unfold fileIdStage
  split
  · exact ⟨rfl, rfl, rfl, rfl, rfl⟩
  · split
    · split
      · exact ⟨rfl, rfl, rfl, rfl, rfl⟩
      · exact setStartDate_core a _
    · exact ⟨rfl, rfl, rfl, rfl, rfl⟩

theorem deviceStage_core (raw : RawData) (a : Activity) :
    (deviceStage raw a).type = a.type ∧
    (deviceStage raw a).has_heartrate = a.has_heartrate ∧
    (deviceStage raw a).has_power = a.has_power ∧
    (deviceStage raw a).elev_high = a.elev_high ∧
    (deviceStage raw a).elev_low = a.elev_low := by
  unfold deviceStage
  split
  · exact ⟨rfl, rfl, rfl, rfl, rfl⟩
  · split <;> split <;> exact ⟨rfl, rfl, rfl, rfl, rfl⟩

theorem elevStage_core {el : List (Option FitVal)} {a a' : Activity}
    (h : elevStage el a = .ok a') :
    a'.type = a.type ∧ a'.has_heartrate = a.has_heartrate ∧
    a'.has_power = a.has_power := by
  unfold elevStage at h
  by_cases he : el.isEmpty
  · simp only [he, if_true] at h
    injection h with h
    subst h
    exact ⟨rfl, rfl, rfl⟩
  · simp only [he, if_false, Bool.false_eq_true] at h
    cases hmax : pymax el with
    | error e => rw [hmax] at h; exact Except.noConfusion h
    | ok hv =>
        rw [hmax] at h
        cases hmin : pymin el with
        | error e => rw [hmin] at h; exact Except.noConfusion h
        | ok lv =>
            rw [hmin] at h
            injection h with h
            subst h
            exact ⟨rfl, rfl, rfl⟩

theorem splitsStage_core {a a' : Activity} (h : splitsStage a = .ok a') :
    a'.type = a.type ∧ a'.has_heartrate = a.has_heartrate ∧
    a'.has_power = a.has_power ∧ a'.elev_high = a.elev_high ∧
    a'.elev_low = a.elev_low := by
  unfold splitsStage at h
  cases hgo : (if a.gps_track.isEmpty then .ok false else pyGTzero a.distance :
      Except String Bool) with
  | error e => rw [hgo] at h; exact Except.noConfusion h
  | ok go =>
      rw [hgo] at h
      cases go with
      | false =>
          simp only [if_false, Bool.false_eq_true] at h
          injection h with h
          subst h
          exact ⟨rfl, rfl, rfl, rfl, rfl⟩
      | true =>
          simp only [if_true] at h
          cases h1 : _calculate_splits_from_gps a.gps_track (160934 / 100 : ℚ) with
          | error e => rw [h1] at h; exact Except.noConfusion h
          | ok ss =>
              rw [h1] at h
              cases h2 : _calculate_splits_from_gps a.gps_track (1000 : ℚ) with
              | error e => rw [h2] at h; exact Except.noConfusion h
              | ok sm =>
                  rw [h2] at h
                  injection h with h
                  subst h
                  exact ⟨rfl, rfl, rfl, rfl, rfl⟩

theorem nameStage_core {fd : FitVal → Except String String} {a a' : Activity}
    (h : nameStage fd a = .ok a') :
    a'.type = a.type ∧ a'.has_heartrate = a.has_heartrate ∧
    a'.has_power = a.has_power ∧ a'.elev_high = a.elev_high ∧
    a'.elev_low = a.elev_low := by
  unfold nameStage at h
  cases hsd : a.start_date with
  | none =>
      rw [hsd] at h
      injection h with h
      subst h
      exact ⟨rfl, rfl, rfl, rfl, rfl⟩
  | some v =>
      rw [hsd] at h
      by_cases ht : pyTruthy (some v)
      · simp only [ht, if_true] at h
        cases hf : fd v with
        | error e => rw [hf] at h; exact Except.noConfusion h
        | ok ds =>
            rw [hf] at h
            injection h with h
            subst h
            exact ⟨rfl, rfl, rfl, rfl, rfl⟩
      · simp only [ht, if_false, Bool.false_eq_true] at h
        injection h with h
        subst h
        exact ⟨rfl, rfl, rfl, rfl, rfl⟩

set_option maxHeartbeats 1000000 in
/-- Skeleton of a successful projection: the activity's sport type and
presence flags are exactly those produced by the session stage, and its
elevation summary is exactly that produced by the elevation stage. -/
theorem generate_ok_core {fd : FitVal → Except String String} {raw : RawData}
    {act : Activity} (h : _generate_strava_format fd raw = .ok act) :
    act.type = (sessionStage raw initActivity).type ∧
    act.has_heartrate = (sessionStage raw initActivity).has_heartrate ∧
    act.has_power = (sessionStage raw initActivity).has_power ∧
    ∃ a', elevStage (gpsStage raw).2
        (gpsAssign (deviceStage raw (fileIdStage raw (sessionStage raw initActivity)))
          (gpsStage raw).1) = .ok a' ∧
      act.elev_high = a'.elev_high ∧ act.elev_low = a'.elev_low := by
  unfold _generate_strava_format at h
  cases helev : elevStage (gpsStage raw).2
      (gpsAssign (deviceStage raw (fileIdStage raw (sessionStage raw initActivity)))
        (gpsStage raw).1) with
  | error e => simp only [helev] at h; exact Except.noConfusion h
  | ok a4 =>
      simp only [helev] at h
      cases hsp : splitsStage (zoneStage raw (segStage raw (lapStage raw a4))) with
      | error e => simp only [hsp] at h; exact Except.noConfusion h
      | ok a6 =>
          simp only [hsp] at h
          cases hnm : nameStage fd a6 with
          | error e => simp only [hnm] at h; exact Except.noConfusion h
          | ok a7 =>
              simp only [hnm, Except.ok.injEq] at h
              subst h
              have hdev := deviceStage_core raw (fileIdStage raw (sessionStage raw initActivity))
              have hfile := fileIdStage_core raw (sessionStage raw initActivity)
              have helevc := elevStage_core helev
              have hsplc := splitsStage_core hsp
              have hnmc := nameStage_core hnm
              refine ⟨?_, ?_, ?_, a4, rfl, ?_, ?_⟩
              · exact hnmc.1.trans (hsplc.1.trans
                  (helevc.1.trans (hdev.1.trans hfile.1)))
              · exact hnmc.2.1.trans (hsplc.2.1.trans
                  (helevc.2.1.trans (hdev.2.1.trans hfile.2.1)))
              · exact hnmc.2.2.1.trans (hsplc.2.2.1.trans
                  (helevc.2.2.trans (hdev.2.2.1.trans hfile.2.2.1)))
              · exact hnmc.2.2.2.1.trans hsplc.2.2.2.1
              · exact hnmc.2.2.2.2.trans hsplc.2.2.2.2

/-! ## Sport type mapping (claim C7) -/

/-- Sport mapping actually applied by the projector, restated as a
standalone function of the raw data (following the amended claim: the
vocabulary is running→Run, cycling→Ride, walking→Walk, hiking→Hike,
swimming→Swim, generic→Workout, matched case-insensitively on the first
session's string-valued sport field; any other or non-string or absent
value leaves the default "Run"). -/
def sportTypeSpec (raw : RawData) : String :=
  match bucket raw "session" with
  | [] => "Run"
  | s :: _ =>
    match lookupField s "sport" with
    | some f =>
        match f.value with
        | some (.str sp) => (sportMap (pyLower sp)).getD "Run"
        | _ => "Run"
    | none => "Run"

/-- The session stage computes exactly `sportTypeSpec`. -/
theorem sessionStage_type_spec (raw : RawData) :
    (sessionStage raw initActivity).type = sportTypeSpec raw := by
  unfold sessionStage sportTypeSpec
  cases bucket raw "session" with
  | nil => rfl
  | cons s rest =>
      have hstart : ∀ b : Activity,
          (match lookupField s "start_time" with
            | some fd => setStartDate b fd.value
            | none => b).type = b.type := by
        intro b
        cases lookupField s "start_time" with
        | none => rfl
        | some f => exact (setStartDate_core b f.value).1
      have hfold := fun b => (foldl_sessionFieldsStep_core s fieldMappingKeys b).1
      cases hsp : lookupField s "sport" with
      | none =>
          simp only [hsp]
          exact (hfold _).trans (hstart initActivity)
      | some f =>
          simp only [hsp]
          cases hv : f.value with
          | none => exact (hfold _).trans (hstart initActivity)
          | some w =>
              cases w with
              | num q => exact (hfold _).trans (hstart initActivity)
              | str sp => rfl
              | isoTime t => exact (hfold _).trans (hstart initActivity)

/-- C7 (amended): the normalized activity's sport type is mapped from
the first session's sport field by case-insensitive lookup in the fixed
vocabulary running→Run, cycling→Ride, walking→Walk, hiking→Hike,
swimming→Swim, generic→Workout; any other unmatched, non-string or
absent sport value defaults the type to "Run". -/
theorem generate_type_eq_sportTypeSpec (fd : FitVal → Except String String)
    (raw : RawData) (act : Activity)
    (h : _generate_strava_format fd raw = .ok act) :
    act.type = sportTypeSpec raw :=
  (generate_ok_core h).1.trans (sessionStage_type_spec raw)

/-- The sport vocabulary exactly as claim C7 states it: five sports,
and "anything else is mapped to Workout". -/
def sportMapClaim (s : String) : Option String :=
  if s = "running" then some "Run"
  else if s = "cycling" then some "Ride"
  else if s = "walking" then some "Walk"
  else if s = "hiking" then some "Hike"
  else if s = "swimming" then some "Swim"
  else none

/-- The sport type as claim C7 describes it: a string sport is looked
up case-insensitively, anything else in the vocabulary maps to
Workout; an unmatched (non-string or absent) sport field defaults to
"Run". -/
def sportTypeClaim (raw : RawData) : String :=
  match bucket raw "session" with
  | [] => "Run"
  | s :: _ =>
    match lookupField s "sport" with
    | some f =>
        match f.value with
        | some (.str sp) => (sportMapClaim (pyLower sp)).getD "Workout"
        | _ => "Run"
    | none => "Run"

/-- Claim C7 as stated, over the projector. -/
def C7Statement : Prop :=
  ∀ (fd : FitVal → Except String String) (raw : RawData) (act : Activity),
    _generate_strava_format fd raw = .ok act → act.type = sportTypeClaim raw

/-- Raw data whose only session message carries the sport "rowing" —
a value outside the five-sport vocabulary. -/
def rawC7 : RawData :=
  { initRawData with
    known := addOther initRawData.known "session"
      [("sport", { value := some (.str "rowing") })] }

/-- The activity the projector produces for `rawC7`. -/
def actC7 : Activity :=
  match _generate_strava_format fdOk rawC7 with
  | .ok a => a
  | .error _ => initActivity

/-- C7 counterexample: for the session sport "rowing" the code yields
type "Run" (the `dict.get` default), while the claim's "anything else →
Workout" demands "Workout"; so the claim as stated is false. -/
theorem C7_counterexample : ¬ C7Statement := by
  intro h
  have heq : _generate_strava_format fdOk rawC7 = .ok actC7 := by rfl
  have hty := h fdOk rawC7 actC7 heq
  exact absurd hty (by decide)

/-- Raw data whose only session message carries the sport "Cycling". -/
def rawC7w : RawData :=
  { initRawData with
    known := addOther initRawData.known "session"
      [("sport", { value := some (.str "Cycling") })] }

/-- The activity the projector produces for `rawC7w`. -/
def actC7w : Activity :=
  match _generate_strava_format fdOk rawC7w with
  | .ok a => a
  | .error _ => initActivity

/-- Witness for `generate_type_eq_sportTypeSpec` at `rawC7w` (and the
mapped value is indeed "Ride"). -/
theorem generate_type_eq_sportTypeSpec_witness :
    actC7w.type = sportTypeSpec rawC7w ∧ actC7w.type = "Ride" :=
  ⟨generate_type_eq_sportTypeSpec fdOk rawC7w actC7w (by rfl), by decide⟩

/-! ## Heart-rate / power presence flags (claim C8) -/

/-- A session field is present with a truthy value. -/
def presentTruthy (s : RecordDict) (k : String) : Bool :=
  match lookupField s k with
  | some f => pyTruthy f.value
  | none => false

/-- `has_heartrate` as the code computes it, restated over the raw
data (the amended claim): some heart-rate summary field of the first
session is present with a truthy — non-null and non-zero — value. -/
def hrFlagSpec (raw : RawData) : Bool :=
  match bucket raw "session" with
  | [] => false
  | s :: _ => presentTruthy s "avg_heart_rate" || presentTruthy s "max_heart_rate"

/-- `has_power`, symmetric to `hrFlagSpec`. -/
def pwrFlagSpec (raw : RawData) : Bool :=
  match bucket raw "session" with
  | [] => false
  | s :: _ => presentTruthy s "avg_power" || presentTruthy s "max_power"

theorem applySessionField_hh (a : Activity) (fit : String) (v : Option FitVal) :
    (applySessionField a fit v).has_heartrate =
      (a.has_heartrate ||
        ((fit = "avg_heart_rate" || fit = "max_heart_rate") && pyTruthy v)) := by
  unfold applySessionField
  have hm := (setMappedField_core a fit v).2.1
  cases hc1 : ((decide (fit = "avg_heart_rate") || decide (fit = "max_heart_rate")) &&
      pyTruthy v) <;>
    cases hc2 : ((decide (fit = "avg_power") || decide (fit = "max_power")) &&
      pyTruthy v) <;>
    simp [hc1, hc2, hm]

theorem applySessionField_hp (a : Activity) (fit : String) (v : Option FitVal) :
    (applySessionField a fit v).has_power =
      (a.has_power ||
        ((fit = "avg_power" || fit = "max_power") && pyTruthy v)) := by
  unfold applySessionField
  have hm := (setMappedField_core a fit v).2.2.1
  cases hc1 : ((decide (fit = "avg_heart_rate") || decide (fit = "max_heart_rate")) &&
      pyTruthy v) <;>
    cases hc2 : ((decide (fit = "avg_power") || decide (fit = "max_power")) &&
      pyTruthy v) <;>
    simp [hc1, hc2, hm]

theorem sessionFieldsStep_hh (s : RecordDict) (a : Activity) (fit : String) :
    (sessionFieldsStep s a fit).has_heartrate =
      (a.has_heartrate ||
        ((fit = "avg_heart_rate" || fit = "max_heart_rate") && presentTruthy s fit)) := by
  unfold sessionFieldsStep presentTruthy
  cases hl : lookupField s fit with
  | none => simp
  | some f => simp [applySessionField_hh]

theorem sessionFieldsStep_hp (s : RecordDict) (a : Activity) (fit : String) :
    (sessionFieldsStep s a fit).has_power =
      (a.has_power ||
        ((fit = "avg_power" || fit = "max_power") && presentTruthy s fit)) := by
  unfold sessionFieldsStep presentTruthy
  cases hl : lookupField s fit with
  | none => simp
  | some f => simp [applySessionField_hp]

theorem foldl_sessionFieldsStep_hh (s : RecordDict) (l : List String)
    (a : Activity) :
    (l.foldl (sessionFieldsStep s) a).has_heartrate =
      (a.has_heartrate ||
        l.any (fun k => (k = "avg_heart_rate" || k = "max_heart_rate") &&
          presentTruthy s k)) := by
  induction l generalizing a with
  | nil => simp
  | cons hd tl ih =>
      rw [List.foldl_cons, ih, sessionFieldsStep_hh]
      simp [Bool.or_assoc]

theorem foldl_sessionFieldsStep_hp (s : RecordDict) (l : List String)
    (a : Activity) :
    (l.foldl (sessionFieldsStep s) a).has_power =
      (a.has_power ||
        l.any (fun k => (k = "avg_power" || k = "max_power") &&
          presentTruthy s k)) := by
  induction l generalizing a with
  | nil => simp
  | cons hd tl ih =>
      rw [List.foldl_cons, ih, sessionFieldsStep_hp]
      simp [Bool.or_assoc]

/-- The session stage computes exactly `hrFlagSpec` / `pwrFlagSpec`. -/
theorem sessionStage_flags_spec (raw : RawData) :
    (sessionStage raw initActivity).has_heartrate = hrFlagSpec raw ∧
    (sessionStage raw initActivity).has_power = pwrFlagSpec raw := by
  unfold sessionStage hrFlagSpec pwrFlagSpec
  cases bucket raw "session" with
  | nil => exact ⟨rfl, rfl⟩
  | cons s rest =>
      have hstart : ∀ b : Activity,
          (match lookupField s "start_time" with
            | some fd => setStartDate b fd.value
            | none => b).has_heartrate = b.has_heartrate ∧
          (match lookupField s "start_time" with
            | some fd => setStartDate b fd.value
            | none => b).has_power = b.has_power := by
        intro b
        cases lookupField s "start_time" with
        | none => exact ⟨rfl, rfl⟩
        | some f => exact ⟨(setStartDate_core b f.value).2.1,
            (setStartDate_core b f.value).2.2.1⟩
      have hsport : ∀ b : Activity,
          (match lookupField s "sport" with
            | some fd =>
                match fd.value with
                | some (.str sp) => { b with type := (sportMap (pyLower sp)).getD "Run" }
                | _ => b
            | none => b).has_heartrate = b.has_heartrate ∧
          (match lookupField s "sport" with
            | some fd =>
                match fd.value with
                | some (.str sp) => { b with type := (sportMap (pyLower sp)).getD "Run" }
                | _ => b
            | none => b).has_power = b.has_power := by
        intro b
        constructor
        · split
          · split <;> rfl
          · rfl
        · split
          · split <;> rfl
          · rfl
      constructor
      · rw [(hsport _).1, foldl_sessionFieldsStep_hh, (hstart _).1]
        show (false || _) = _
        rw [Bool.false_or]
        simp [fieldMappingKeys, presentTruthy]
      · rw [(hsport _).2, foldl_sessionFieldsStep_hp, (hstart _).2]
        show (false || _) = _
        rw [Bool.false_or]
        simp [fieldMappingKeys, presentTruthy]

/-- C8 (amended): `has_heartrate` is true exactly when the first
session carries an average or max heart-rate field whose value is
truthy (present, non-null and non-zero), and symmetrically `has_power`
for the power fields; a present but zero (or otherwise falsy) value
leaves the flag false. -/
theorem generate_flags_spec (fd : FitVal → Except String String)
    (raw : RawData) (act : Activity)
    (h : _generate_strava_format fd raw = .ok act) :
    act.has_heartrate = hrFlagSpec raw ∧ act.has_power = pwrFlagSpec raw :=
  ⟨(generate_ok_core h).2.1.trans (sessionStage_flags_spec raw).1,
   (generate_ok_core h).2.2.1.trans (sessionStage_flags_spec raw).2⟩

/-- "Present and non-null" exactly as claim C8 states it, for the two
heart-rate summary fields of the first session. -/
def hrPresentNonNull (raw : RawData) : Prop :=
  match bucket raw "session" with
  | [] => False
  | s :: _ =>
      (∃ f, lookupField s "avg_heart_rate" = some f ∧ f.value ≠ none) ∨
      (∃ f, lookupField s "max_heart_rate" = some f ∧ f.value ≠ none)

/-- "Present and non-null" for the two power summary fields. -/
def pwrPresentNonNull (raw : RawData) : Prop :=
  match bucket raw "session" with
  | [] => False
  | s :: _ =>
      (∃ f, lookupField s "avg_power" = some f ∧ f.value ≠ none) ∨
      (∃ f, lookupField s "max_power" = some f ∧ f.value ≠ none)

/-- Claim C8 as stated, over the projector. -/
def C8Statement : Prop :=
  ∀ (fd : FitVal → Except String String) (raw : RawData) (act : Activity),
    _generate_strava_format fd raw = .ok act →
    (act.has_heartrate = true ↔ hrPresentNonNull raw) ∧
    (act.has_power = true ↔ pwrPresentNonNull raw)

/-- Raw data whose only session message carries `avg_heart_rate` with
the present, non-null value `0`. -/
def rawC8 : RawData :=
  { initRawData with
    known := addOther initRawData.known "session"
      [("avg_heart_rate", { value := some (.num 0) })] }

/-- The activity the projector produces for `rawC8`. -/
def actC8 : Activity :=
  match _generate_strava_format fdOk rawC8 with
  | .ok a => a
  | .error _ => initActivity

/-- C8 counterexample: `rawC8` has a present, non-null average
heart-rate (the value 0), but the code's truthiness test
(`if ... and value:`) leaves `has_heartrate` false; the claim as stated
is therefore false. -/
theorem C8_counterexample : ¬ C8Statement := by
  intro h
  have heq : _generate_strava_format fdOk rawC8 = .ok actC8 := by rfl
  have hflag := (h fdOk rawC8 actC8 heq).1
  have hpres : hrPresentNonNull rawC8 :=
    Or.inl ⟨{ value := some (.num 0) }, rfl, by simp⟩
  have : actC8.has_heartrate = true := hflag.mpr hpres
  exact absurd this (by decide)

/-- Raw data with a truthy average heart rate and a truthy max power in
its session. -/
def rawC8w : RawData :=
  { initRawData with
    known := addOther initRawData.known "session"
      [("avg_heart_rate", { value := some (.num 150) }),
       ("max_power", { value := some (.num 300) })] }

/-- The activity the projector produces for `rawC8w`. -/
def actC8w : Activity :=
  match _generate_strava_format fdOk rawC8w with
  | .ok a => a
  | .error _ => initActivity

/-- Witness for `generate_flags_spec` at `rawC8w` (both flags come out
true there). -/
theorem generate_flags_spec_witness :
    (actC8w.has_heartrate = hrFlagSpec rawC8w ∧
      actC8w.has_power = pwrFlagSpec rawC8w) ∧
    actC8w.has_heartrate = true ∧ actC8w.has_power = true :=
  ⟨generate_flags_spec fdOk rawC8w actC8w (by rfl), by decide, by decide⟩

/-! ## Elevation summary (claim C9) -/

/-- A comparison that returned a verdict had two non-null operands. -/
theorem pyGTv_ok_not_none {x m : Option FitVal} {b : Bool}
    (h : pyGTv x m = .ok b) : x ≠ none ∧ m ≠ none := by
  constructor
  · intro hx
    subst hx
    rcases m with _ | w
    · simp [pyGTv] at h
    · cases w <;> simp [pyGTv] at h
  · intro hm
    subst hm
    rcases x with _ | w
    · simp [pyGTv] at h
    · cases w <;> simp [pyGTv] at h

/-- A comparison with a numeric left operand succeeds only against a
numeric right operand, and its verdict is the numeric comparison. -/
theorem pyGTv_num_left {a c : Option FitVal} {b : Bool} {qa : ℚ}
    (h : pyGTv a c = .ok b) (ha : a = some (.num qa)) :
    ∃ qc, c = some (.num qc) ∧ b = decide (qc < qa) := by
  subst ha
  rcases c with _ | w
  · simp [pyGTv] at h
  · cases w with
    | num qc =>
        refine ⟨qc, rfl, ?_⟩
        simp [pyGTv] at h
        exact h.symm
    | str s => simp [pyGTv] at h
    | isoTime t => simp [pyGTv] at h

/-- Symmetric to `pyGTv_num_left` for the right operand. -/
theorem pyGTv_num_right {a c : Option FitVal} {b : Bool} {qc : ℚ}
    (h : pyGTv a c = .ok b) (hc : c = some (.num qc)) :
    ∃ qa, a = some (.num qa) ∧ b = decide (qc < qa) := by
  subst hc
  rcases a with _ | w
  · simp [pyGTv] at h
  · cases w with
    | num qa =>
        refine ⟨qa, rfl, ?_⟩
        simp [pyGTv] at h
        exact h.symm
    | str s => simp [pyGTv] at h
    | isoTime t => simp [pyGTv] at h

/-- The running maximum is one of the scanned values. -/
theorem pymaxAux_mem :
    ∀ (xs : List (Option FitVal)) (m v : Option FitVal),
      pymaxAux m xs = .ok v → v ∈ m :: xs := by
  intro xs
  induction xs with
  | nil =>
      intro m v h
      injection h with h
      subst h
      exact List.mem_cons_self _ _
  | cons y ys ih =>
      intro m v h
      cases hg : pyGTv y m with
      | error e => simp only [pymaxAux, hg] at h; exact Except.noConfusion h
      | ok b =>
          simp only [pymaxAux, hg] at h
          have hm := ih _ _ h
          cases b with
          | true =>
              simp only [if_true] at hm
              rcases List.mem_cons.mp hm with h1 | h1
              · subst h1
                exact List.mem_cons_of_mem _ (List.mem_cons_self _ _)
              · exact List.mem_cons_of_mem _ (List.mem_cons_of_mem _ h1)
          | false =>
              simp only [Bool.false_eq_true, if_false] at hm
              rcases List.mem_cons.mp hm with h1 | h1
              · subst h1
                exact List.mem_cons_self _ _
              · exact List.mem_cons_of_mem _ (List.mem_cons_of_mem _ h1)

/-- When at least one comparison happened, every scanned value was
non-null. -/
theorem pymaxAux_not_none :
    ∀ (xs : List (Option FitVal)) (m v : Option FitVal),
      pymaxAux m xs = .ok v → xs ≠ [] →
      m ≠ none ∧ ∀ x ∈ xs, x ≠ none := by
  intro xs
  induction xs with
  | nil => intro m v _ hne; exact absurd rfl hne
  | cons y ys ih =>
      intro m v h _
      cases hg : pyGTv y m with
      | error e => simp only [pymaxAux, hg] at h; exact Except.noConfusion h
      | ok b =>
          simp only [pymaxAux, hg] at h
          have hnn := pyGTv_ok_not_none hg
          refine ⟨hnn.2, ?_⟩
          intro x hx
          rcases List.mem_cons.mp hx with rfl | hx2
          · exact hnn.1
          · cases ys with
            | nil => cases hx2
            | cons z zs => exact (ih _ _ h (by simp)).2 x hx2

/-- If the running maximum ends numeric, every scanned value was
numeric and bounded above by it. -/
theorem pymaxAux_num_ub :
    ∀ (xs : List (Option FitVal)) (m v : Option FitVal),
      pymaxAux m xs = .ok v → ∀ q, v = some (.num q) →
      ∀ x ∈ m :: xs, ∃ qx, x = some (.num qx) ∧ qx ≤ q := by
  intro xs
  induction xs with
  | nil =>
      intro m v h q hv x hx
      injection h with h
      subst h
      subst hv
      rcases List.mem_cons.mp hx with rfl | hx2
      · exact ⟨q, rfl, le_refl q⟩
      · cases hx2
  | cons y ys ih =>
      intro m v h q hv x hx
      cases hg : pyGTv y m with
      | error e => simp only [pymaxAux, hg] at h; exact Except.noConfusion h
      | ok b =>
          simp only [pymaxAux, hg] at h
          have hrec := ih _ _ h q hv
          obtain ⟨qk, hk, hkle⟩ :=
            hrec (if b then y else m) (List.mem_cons_self _ _)
          rcases List.mem_cons.mp hx with rfl | hx1
          · cases b with
            | true =>
                simp only [if_true] at hk
                obtain ⟨qm, hqm, hb⟩ := pyGTv_num_left hg hk
                refine ⟨qm, hqm, le_trans ?_ hkle⟩
                exact le_of_lt (of_decide_eq_true hb.symm)
            | false =>
                simp only [Bool.false_eq_true, if_false] at hk
                exact ⟨qk, hk, hkle⟩
          · rcases List.mem_cons.mp hx1 with rfl | hx2
            · cases b with
              | true =>
                  simp only [if_true] at hk
                  exact ⟨qk, hk, hkle⟩
              | false =>
                  simp only [Bool.false_eq_true, if_false] at hk
                  obtain ⟨qy, hqy, hb⟩ := pyGTv_num_right hg hk
                  refine ⟨qy, hqy, le_trans ?_ hkle⟩
                  exact le_of_not_lt (of_decide_eq_false hb.symm)
            · exact hrec x (List.mem_cons_of_mem _ hx2)

/-- If the running minimum ends numeric, every scanned value was
numeric and bounded below by it. -/
theorem pyminAux_num_lb :
    ∀ (xs : List (Option FitVal)) (m v : Option FitVal),
      pyminAux m xs = .ok v → ∀ q, v = some (.num q) →
      ∀ x ∈ m :: xs, ∃ qx, x = some (.num qx) ∧ q ≤ qx := by
  intro xs
  induction xs with
  | nil =>
      intro m v h q hv x hx
      injection h with h
      subst h
      subst hv
      rcases List.mem_cons.mp hx with rfl | hx2
      · exact ⟨q, rfl, le_refl q⟩
      · cases hx2
  | cons y ys ih =>
      intro m v h q hv x hx
      cases hg : pyGTv m y with
      | error e => simp only [pyminAux, hg] at h; exact Except.noConfusion h
      | ok b =>
          simp only [pyminAux, hg] at h
          have hrec := ih _ _ h q hv
          obtain ⟨qk, hk, hkle⟩ :=
            hrec (if b then y else m) (List.mem_cons_self _ _)
          rcases List.mem_cons.mp hx with rfl | hx1
          · cases b with
            | true =>
                simp only [if_true] at hk
                obtain ⟨qm, hqm, hb⟩ := pyGTv_num_right hg hk
                refine ⟨qm, hqm, le_trans hkle ?_⟩
                exact le_of_lt (of_decide_eq_true hb.symm)
            | false =>
                simp only [Bool.false_eq_true, if_false] at hk
                exact ⟨qk, hk, hkle⟩
          · rcases List.mem_cons.mp hx1 with rfl | hx2
            · cases b with
              | true =>
                  simp only [if_true] at hk
                  exact ⟨qk, hk, hkle⟩
              | false =>
                  simp only [Bool.false_eq_true, if_false] at hk
                  obtain ⟨qy, hqy, hb⟩ := pyGTv_num_left hg hk
                  refine ⟨qy, hqy, le_trans hkle ?_⟩
                  exact le_of_not_lt (of_decide_eq_false hb.symm)
            · exact hrec x (List.mem_cons_of_mem _ hx2)

/-- C9 (amended): in every produced activity, `elev_high ≥ elev_low`
whenever both are non-null numbers, and both are null exactly when
every elevation entry collected from the record stream (one per GPS
point whose altitude key is set, holding the enhanced-altitude value
when that field is present, else the altitude value) is null — in
particular when no record carried an altitude field at all. -/
theorem generate_elev_spec (fd : FitVal → Except String String)
    (raw : RawData) (act : Activity)
    (h : _generate_strava_format fd raw = .ok act) :
    (∀ qh ql, act.elev_high = some (.num qh) → act.elev_low = some (.num ql) →
      ql ≤ qh) ∧
    ((act.elev_high = none ∧ act.elev_low = none) ↔
      (gpsStage raw).2.all (fun v => v.isNone) = true) := by
  obtain ⟨-, -, -, a', helev, hh, hl⟩ := generate_ok_core h
  have ha0h : (gpsAssign (deviceStage raw (fileIdStage raw
      (sessionStage raw initActivity))) (gpsStage raw).1).elev_high = none := by
    show (deviceStage raw (fileIdStage raw (sessionStage raw initActivity))).elev_high = none
    rw [(deviceStage_core raw _).2.2.2.1, (fileIdStage_core raw _).2.2.2.1,
      (sessionStage_elev raw initActivity).1]
    rfl
  have ha0l : (gpsAssign (deviceStage raw (fileIdStage raw
      (sessionStage raw initActivity))) (gpsStage raw).1).elev_low = none := by
    show (deviceStage raw (fileIdStage raw (sessionStage raw initActivity))).elev_low = none
    rw [(deviceStage_core raw _).2.2.2.2, (fileIdStage_core raw _).2.2.2.2,
      (sessionStage_elev raw initActivity).2]
    rfl
  unfold elevStage at helev
  by_cases hie : (gpsStage raw).2.isEmpty = true
  · rw [if_pos hie] at helev
    injection helev with heq
    rw [List.isEmpty_iff] at hie
    constructor
    · intro qh ql hqh _
      rw [hh, ← heq, ha0h] at hqh
      exact Option.noConfusion hqh
    · rw [hie]
      constructor
      · intro _
        rfl
      · intro _
        rw [hh, ← heq, ha0h, hl, ← heq, ha0l]
        exact ⟨rfl, rfl⟩
  · rw [if_neg hie] at helev
    cases hmax : pymax (gpsStage raw).2 with
    | error e => rw [hmax] at helev; exact Except.noConfusion helev
    | ok v =>
        rw [hmax] at helev
        cases hmin : pymin (gpsStage raw).2 with
        | error e => rw [hmin] at helev; exact Except.noConfusion helev
        | ok w =>
            rw [hmin] at helev
            injection helev with heq
            subst heq
            rcases hxl : (gpsStage raw).2 with _ | ⟨x, xs⟩
            · rw [hxl] at hie
              simp at hie
            · rw [hxl] at hmax hmin
              have hmaxAux : pymaxAux x xs = .ok v := hmax
              have hminAux : pyminAux x xs = .ok w := hmin
              constructor
              · intro qh ql hqh hql
                have hv : v = some (.num qh) := by rw [hh] at hqh; exact hqh
                have hw : w = some (.num ql) := by rw [hl] at hql; exact hql
                obtain ⟨qx, hx1, hle1⟩ :=
                  pymaxAux_num_ub xs x v hmaxAux qh hv x (List.mem_cons_self _ _)
                obtain ⟨qx2, hx2, hle2⟩ :=
                  pyminAux_num_lb xs x w hminAux ql hw x (List.mem_cons_self _ _)
                rw [hx1] at hx2
                injection hx2 with hx3
                injection hx3 with hx4
                subst hx4
                exact le_trans hle2 hle1
              · constructor
                · rintro ⟨hhn, hln⟩
                  have hv : v = none := by rw [hh] at hhn; exact hhn
                  cases xs with
                  | nil =>
                      have hxv : x = v := by
                        have h5 := hmaxAux
                        simp only [pymaxAux, Except.ok.injEq] at h5
                        exact h5
                      subst hv
                      simp [hxv]
                  | cons y ys =>
                      have hnn := pymaxAux_not_none (y :: ys) x v hmaxAux (by simp)
                      have hvm := pymaxAux_mem (y :: ys) x v hmaxAux
                      rcases List.mem_cons.mp hvm with h6 | hvmem
                      · exact absurd (h6.symm.trans hv) hnn.1
                      · exact absurd hv (hnn.2 v hvmem)
                · intro hall
                  have hxn : x = none := by
                    have hx := (List.all_eq_true.mp hall) x (List.mem_cons_self _ _)
                    simpa [Option.isNone_iff_eq_none] using hx
                  cases xs with
                  | nil =>
                      have hxv : x = v := by
                        have h5 := hmaxAux
                        simp only [pymaxAux, Except.ok.injEq] at h5
                        exact h5
                      have hxw : x = w := by
                        have h5 := hminAux
                        simp only [pyminAux, Except.ok.injEq] at h5
                        exact h5
                      constructor
                      · exact hh.trans (hxv.symm.trans hxn)
                      · exact hl.trans (hxw.symm.trans hxn)
                  | cons y ys =>
                      have hnn := pymaxAux_not_none (y :: ys) x v hmaxAux (by simp)
                      exact absurd hxn hnn.1

/-- "Some record message carried an altitude value", as claim C9 reads:
an altitude or enhanced-altitude field is present with a non-null
value. -/
def recordCarriesAltitude (raw : RawData) : Prop :=
  ∃ r ∈ bucket raw "record", ∃ f : FieldData,
    (lookupField r "altitude" = some f ∨
      lookupField r "enhanced_altitude" = some f) ∧ f.value ≠ none

/-- Claim C9 as stated, over the projector. -/
def C9Statement : Prop :=
  ∀ (fd : FitVal → Except String String) (raw : RawData) (act : Activity),
    _generate_strava_format fd raw = .ok act →
    (∀ qh ql, act.elev_high = some (.num qh) → act.elev_low = some (.num ql) →
      ql ≤ qh) ∧
    ((act.elev_high = none ∧ act.elev_low = none) ↔ ¬ recordCarriesAltitude raw)

/-- Raw data whose single record carries `altitude = 5` together with a
present but null `enhanced_altitude` (a combination real devices emit);
the projector's enhanced-preference overwrites the altitude entry with
null. -/
def rawC9 : RawData :=
  { initRawData with
    known := addOther initRawData.known "record"
      [("altitude", { value := some (.num 5) }),
       ("enhanced_altitude", { value := none })] }

/-- The activity the projector produces for `rawC9`. -/
def actC9 : Activity :=
  match _generate_strava_format fdOk rawC9 with
  | .ok a => a
  | .error _ => initActivity

/-- C9 counterexample: for `rawC9` the produced activity has
`elev_high = elev_low = null` although its record carried the non-null
altitude value 5; "both null exactly when no record carried an altitude
value" is therefore false as stated. -/
theorem C9_counterexample : ¬ C9Statement := by
  intro h
  have heq : _generate_strava_format fdOk rawC9 = .ok actC9 := by rfl
  have hiff := (h fdOk rawC9 actC9 heq).2
  have hnone : actC9.elev_high = none ∧ actC9.elev_low = none := ⟨rfl, rfl⟩
  have hcarry : recordCarriesAltitude rawC9 :=
    ⟨[("altitude", { value := some (.num 5) }),
      ("enhanced_altitude", { value := none })],
     List.mem_cons_self _ _,
     { value := some (.num 5) }, Or.inl rfl, by simp⟩
  exact (hiff.mp hnone) hcarry

/-- Raw data with two records carrying numeric altitudes 5 and 3. -/
def rawC9w : RawData :=
  { initRawData with
    known := addOther (addOther initRawData.known "record"
        [("altitude", { value := some (.num 5) })]) "record"
      [("altitude", { value := some (.num 3) })] }

/-- The activity the projector produces for `rawC9w`. -/
def actC9w : Activity :=
  match _generate_strava_format fdOk rawC9w with
  | .ok a => a
  | .error _ => initActivity

/-- Witness for `generate_elev_spec` at `rawC9w`: the produced
elevation summary is 5 / 3, the bound holds, and the collected
elevations are not all null. -/
theorem generate_elev_spec_witness :
    ((3 : ℚ) ≤ 5) ∧
    ((actC9w.elev_high = none ∧ actC9w.elev_low = none) ↔
      (gpsStage rawC9w).2.all (fun v => v.isNone) = true) :=
  ⟨(generate_elev_spec fdOk rawC9w actC9w (by rfl)).1 5 3 (by rfl) (by rfl),
   (generate_elev_spec fdOk rawC9w actC9w (by rfl)).2⟩

/-! ## Split calculator properties (claims C2, C3) -/

/-- What a produced split observes in the track: it closes between a
boundary sample `pj` (at the stored split-start index) and the crossing
sample `pi`, its stored distance is the nominal bucket, its elapsed
time is the boundary samples' wall-clock delta, and its average speed
is the actually covered distance `di - dj` divided by the elapsed time
— 0 when the elapsed time is not positive. -/
def SplitObserved (track : List GpsPoint) (bucket : ℚ) (s : Split) : Prop :=
  ∃ j i pj pi dj di, j ≤ i ∧
    track.get? j = some pj ∧ track.get? i = some pi ∧
    asNumE (pointDist pj) = .ok dj ∧ asNumE (pointDist pi) = .ok di ∧
    s.distance = bucket ∧
    s.elapsed_time = elapsedOf pj pi ∧
    s.moving_time = s.elapsed_time ∧
    s.average_speed =
      (if 0 < s.elapsed_time then (di - dj) / (s.elapsed_time : ℚ) else 0)

/-- Invariant of the split loop: starting from a well-formed state, a
successful run produces sequentially numbered splits, each observing
the track. -/
theorem splitLoop_master (track : List GpsPoint) (bucket : ℚ) :
    ∀ (rest : List GpsPoint) (k cur ssi : Nat) (acc out : List Split),
      rest = track.drop k →
      splitLoop track bucket (enumIdx k rest) cur ssi acc = .ok out →
      ssi ≤ k →
      cur = acc.length + 1 →
      acc.map Split.split = List.range' 1 acc.length →
      (∀ s ∈ acc, SplitObserved track bucket s) →
      out.map Split.split = List.range' 1 out.length ∧
        (∀ s ∈ out, SplitObserved track bucket s) := by
  intro rest
  induction rest with
  | nil =>
      intro k cur ssi acc out _ h _ _ hmap hobs
      simp only [enumIdx, splitLoop, Except.ok.injEq] at h
      subst h
      exact ⟨hmap, hobs⟩
  | cons p rest' ih =>
      intro k cur ssi acc out hdrop h hssi hcur hmap hobs
      have hgetk : track.get? k = some p := by
        have h0 : (track.drop k).get? 0 = some p := by rw [← hdrop]; rfl
        rw [List.get?_drop] at h0
        simpa using h0
      have hdrop' : rest' = track.drop (k + 1) := by
        have h1 := List.drop_drop 1 k track
        rw [← hdrop] at h1
        simpa using h1
      simp only [enumIdx, splitLoop] at h
      cases hd : asNumE (pointDist p) with
      | error e => simp only [hd] at h; exact Except.noConfusion h
      | ok d =>
          simp only [hd] at h
          by_cases hcross : (cur : ℚ) * bucket ≤ d
          · rw [if_pos hcross] at h
            by_cases hguard : 0 < k ∧ ssi < track.length
            · rw [if_pos hguard] at h
              cases hds : asNumE (pointDist (track.getD ssi {})) with
              | error e => simp only [hds] at h; exact Except.noConfusion h
              | ok dstart =>
                  simp only [hds] at h
                  cases hed : elevDiffE p (track.getD ssi {}) with
                  | error e => simp only [hed] at h; exact Except.noConfusion h
                  | ok ediff =>
                      simp only [hed] at h
                      cases hahr : avgHrOf track ssi k with
                      | error e => simp only [hahr] at h; exact Except.noConfusion h
                      | ok ahr =>
                          simp only [hahr] at h
                          have hgetssi : track.get? ssi = some (track.getD ssi {}) := by
                            rcases hq : track.get? ssi with _ | q
                            · rw [List.get?_eq_none] at hq
                              exact absurd hq (Nat.not_le_of_lt hguard.2)
                            · rw [List.getD_eq_get?, hq]
                              rfl
                          refine ih (k + 1) (cur + 1) k (acc ++ [_]) out hdrop' h
                            (Nat.le_succ k) ?_ ?_ ?_
                          · simp [hcur]
                          · rw [List.map_append, hmap, hcur]
                            simp only [List.map_cons, List.map_nil,
                              List.length_append, List.length_cons,
                              List.length_nil]
                            rw [List.range'_concat]
                            simp [Nat.add_comm]
                          · intro s hs
                            rcases List.mem_append.mp hs with hs1 | hs1
                            · exact hobs s hs1
                            · have hseq : s = _ := List.mem_singleton.mp hs1
                              subst hseq
                              exact ⟨ssi, k, track.getD ssi {}, p, dstart, d,
                                hssi, hgetssi, hgetk, hds, hd,
                                rfl, rfl, rfl, rfl⟩
            · rw [if_neg hguard] at h
              exact ih (k + 1) cur ssi acc out hdrop' h
                (hssi.trans (Nat.le_succ k)) hcur hmap hobs
          · rw [if_neg hcross] at h
            exact ih (k + 1) cur ssi acc out hdrop' h
              (hssi.trans (Nat.le_succ k)) hcur hmap hobs

/-- The timestamps of two points are in order, when both are present
and parseable. -/
def timeLe (p q : GpsPoint) : Prop :=
  match timeOf p, timeOf q with
  | some t1, some t2 => t1 ≤ t2
  | _, _ => True

instance (p q : GpsPoint) : Decidable (timeLe p q) := by
  unfold timeLe
  rcases timeOf p with _ | t1 <;> rcases timeOf q with _ | t2 <;>
    exact inferInstance

/-- The track's timestamps are non-decreasing in track order. -/
def TimesMonotone (track : List GpsPoint) : Prop :=
  List.Pairwise timeLe track

/-- On a time-monotone track, the wall-clock delta between an earlier
and a later sample is non-negative. -/
theorem elapsedOf_nonneg_of_monotone {track : List GpsPoint}
    (hmono : TimesMonotone track) {j i : Nat} {pj pi : GpsPoint}
    (hj : track.get? j = some pj) (hi : track.get? i = some pi)
    (hji : j ≤ i) : 0 ≤ elapsedOf pj pi := by
  unfold elapsedOf
  cases ht1 : timeOf pj with
  | none => simp
  | some t1 =>
      cases ht2 : timeOf pi with
      | none => simp
      | some t2 =>
          simp only [sub_nonneg]
          rcases Nat.lt_or_ge j i with hlt | hge
          · obtain ⟨hjlen, hjget⟩ := List.get?_eq_some.mp hj
            obtain ⟨hilen, higet⟩ := List.get?_eq_some.mp hi
            have hrel := List.pairwise_iff_get.mp hmono ⟨j, hjlen⟩ ⟨i, hilen⟩ hlt
            rw [hjget, higet] at hrel
            unfold timeLe at hrel
            rw [ht1, ht2] at hrel
            exact hrel
          · have hij : j = i := Nat.le_antisymm hji hge
            subst hij
            rw [hj] at hi
            injection hi with hi
            subst hi
            rw [ht1] at ht2
            injection ht2 with ht2
            subst ht2
            exact le_refl t1

/-- C2 (amended): every split the calculator produces observes the
track: its average speed equals the actual distance covered between
its boundary samples (the crossing sample's cumulative distance minus
the split-start sample's) divided by its elapsed time, and is 0
whenever the elapsed time is not positive — in general it is **not**
the nominal bucket distance divided by the elapsed time, although the
nominal bucket is what the split stores as its distance. -/
theorem calculate_splits_avg_speed (track : List GpsPoint) (bucket : ℚ)
    (splits : List Split)
    (h : _calculate_splits_from_gps track bucket = .ok splits) :
    ∀ s ∈ splits, SplitObserved track bucket s :=
  (splitLoop_master track bucket track 0 1 0 [] splits rfl h
    (Nat.le_refl 0) rfl rfl (fun s hs => absurd hs (List.not_mem_nil s))).2

/-- C3 (amended): the produced split sequence is numbered 1, 2, … in
order; average speed is exactly 0 whenever the elapsed time is 0; and
the elapsed time of every split is ≥ 0 whenever the track's timestamps
are non-decreasing (an out-of-order track yields a negative elapsed
time, see the counterexample). -/
theorem calculate_splits_props (track : List GpsPoint) (bucket : ℚ)
    (splits : List Split)
    (h : _calculate_splits_from_gps track bucket = .ok splits) :
    splits.map Split.split = List.range' 1 splits.length ∧
    (∀ s ∈ splits, s.elapsed_time = 0 → s.average_speed = 0) ∧
    (TimesMonotone track → ∀ s ∈ splits, 0 ≤ s.elapsed_time) := by
  have hm := splitLoop_master track bucket track 0 1 0 [] splits rfl h
    (Nat.le_refl 0) rfl rfl (fun s hs => absurd hs (List.not_mem_nil s))
  refine ⟨hm.1, ?_, ?_⟩
  · intro s hs hz
    obtain ⟨j, i, pj, pi, dj, di, -, -, -, -, -, -, -, -, havg⟩ := hm.2 s hs
    rw [havg, hz]
    simp
  · intro hmono s hs
    obtain ⟨j, i, pj, pi, dj, di, hji, hj, hi, -, -, -, hel, -, -⟩ := hm.2 s hs
    rw [hel]
    exact elapsedOf_nonneg_of_monotone hmono hj hi hji

/-- A track sample carrying a cumulative distance and a parseable
timestamp. -/
def trackPoint (d : ℚ) (t : ℤ) : GpsPoint :=
  { distance := some (some (.num d)), time := some (some (.isoTime t)) }

/-- Two samples one second apart covering 2000 m of cumulative
distance. -/
def trackC2 : List GpsPoint := [trackPoint 0 0, trackPoint 2000 1]

/-- The single split the calculator produces for `trackC2` with the
kilometer bucket. -/
def splitC2 : Split :=
  { distance := 1000, elapsed_time := 1, moving_time := 1, split := 1,
    average_speed := 2000, elevation_difference := 0,
    average_heartrate := none, pace_zone := 0 }

/-- C2 counterexample: on `trackC2` with bucket 1000 m the produced
split stores the nominal distance 1000 and elapsed time 1 s but average
speed 2000 m/s (the actual distance delta over the elapsed time), so
the claimed "average speed = split bucket distance ÷ elapsed time"
(which demands 1000) is false as stated. -/
theorem C2_counterexample :
    _calculate_splits_from_gps trackC2 1000 = .ok [splitC2] ∧
    splitC2.average_speed ≠ splitC2.distance / (splitC2.elapsed_time : ℚ) :=
  ⟨by
    norm_num [_calculate_splits_from_gps, splitLoop, enumIdx, trackC2,
      trackPoint, asNumE, pointDist, elapsedOf, timeOf, elevDiffE, avgHrOf,
      pySumE, splitC2, List.filterMap, Option.bind],
   by norm_num [splitC2]⟩

/-- Witness for `calculate_splits_avg_speed` at `trackC2`. -/
theorem calculate_splits_avg_speed_witness : SplitObserved trackC2 1000 splitC2 :=
  calculate_splits_avg_speed trackC2 1000 [splitC2]
    (by
      norm_num [_calculate_splits_from_gps, splitLoop, enumIdx, trackC2,
      trackPoint, asNumE, pointDist, elapsedOf, timeOf, elevDiffE, avgHrOf,
      pySumE, splitC2, List.filterMap, Option.bind]) splitC2
    (List.mem_cons_self _ _)

/-- Two samples whose timestamps run backwards (100 s, then 0 s). -/
def trackC3 : List GpsPoint := [trackPoint 0 100, trackPoint 2000 0]

/-- The single split the calculator produces for `trackC3` with the
kilometer bucket. -/
def splitC3 : Split :=
  { distance := 1000, elapsed_time := -100, moving_time := -100, split := 1,
    average_speed := 0, elevation_difference := 0,
    average_heartrate := none, pace_zone := 0 }

/-- C3 counterexample: a track with out-of-order timestamps produces a
split with elapsed time −100 s, so "every split's elapsed time is ≥ 0"
is false as stated for arbitrary tracks. -/
theorem C3_counterexample :
    _calculate_splits_from_gps trackC3 1000 = .ok [splitC3] ∧
    splitC3.elapsed_time < 0 :=
  ⟨by
    norm_num [_calculate_splits_from_gps, splitLoop, enumIdx, trackC3,
      trackPoint, asNumE, pointDist, elapsedOf, timeOf, elevDiffE, avgHrOf,
      pySumE, splitC3, List.filterMap, Option.bind],
   by decide⟩

/-- Two samples with equal timestamps crossing the kilometer bucket. -/
def trackC3w : List GpsPoint := [trackPoint 0 5, trackPoint 1500 5]

/-- The single split the calculator produces for `trackC3w`. -/
def splitC3w : Split :=
  { distance := 1000, elapsed_time := 0, moving_time := 0, split := 1,
    average_speed := 0, elevation_difference := 0,
    average_heartrate := none, pace_zone := 0 }

/-- Witness for `calculate_splits_props` at the time-monotone track
`trackC3w`, whose single split has elapsed time 0 and average speed 0. -/
theorem calculate_splits_props_witness :
    [splitC3w].map Split.split = List.range' 1 1 ∧
    splitC3w.average_speed = 0 ∧
    0 ≤ splitC3w.elapsed_time := by
  have hmono : TimesMonotone trackC3w := by
    unfold TimesMonotone trackC3w
    refine List.Pairwise.cons ?_ (List.pairwise_singleton _ _)
    intro q hq
    rw [List.mem_singleton] at hq
    subst hq
    unfold timeLe
    simp [timeOf, trackPoint]
  have h := calculate_splits_props trackC3w 1000 [splitC3w]
    (by
      norm_num [_calculate_splits_from_gps, splitLoop, enumIdx, trackC3w,
      trackPoint, asNumE, pointDist, elapsedOf, timeOf, elevDiffE, avgHrOf,
      pySumE, splitC3w, List.filterMap, Option.bind])
  exact ⟨h.1, h.2.1 splitC3w (List.mem_cons_self _ _) rfl,
    h.2.2 hmono splitC3w (List.mem_cons_self _ _)⟩
